import Mathlib

/-!
Verification of the alkoteka product-crawler core against its specification.

The development shallow-embeds the Python source:

* JSON values (the output of json.loads, and the Python values built by the
  extractor) become the inductive type `Json`.  Python dicts are association
  lists with insertion-order semantics; JSON numbers are modelled as exact
  rationals (Python int/float are not distinguished: an integral number
  renders without a fractional part).
* Fallible Python code (attribute errors, conversion errors, unhashable
  keys) runs in `Py α := Except String α`; a raised exception is `.error`.
  String-to-number coercion (float("1.5")) is modelled as an error: the
  specification's claims only exercise numeric fields.
* The regular-expression tests of the spider are implemented directly as
  character-list matchers for the concrete patterns appearing in the source.

Section headers name the source file and function each definition embeds.
-/

namespace Alkoteka

/-! ## JSON / Python value model -/

/-- A Python value as produced by json.loads and manipulated by the spider:
None, bool, int/float (as an exact rational), str, list, dict.
Dict keys are themselves values (Python dicts admit any hashable key);
entries are kept in insertion order, mirroring CPython dicts. -/
inductive Json where
  | null
  | bool (b : Bool)
  | num (q : ℚ)
  | str (s : String)
  | arr (xs : List Json)
  | obj (kvs : List (Json × Json))
  deriving Repr

mutual

def Json.jdecEq : (a b : Json) → Decidable (a = b)
  | .null, .null => isTrue rfl
  | .bool a, .bool b =>
    if h : a = b then isTrue (h ▸ rfl) else isFalse (fun he => h (by injection he))
  | .num a, .num b =>
    if h : a = b then isTrue (h ▸ rfl) else isFalse (fun he => h (by injection he))
  | .str a, .str b =>
    if h : a = b then isTrue (h ▸ rfl) else isFalse (fun he => h (by injection he))
  | .arr xs, .arr ys =>
    match Json.jdecEqList xs ys with
    | isTrue h => isTrue (h ▸ rfl)
    | isFalse h => isFalse (fun he => h (by injection he))
  | .obj xs, .obj ys =>
    match Json.jdecEqKvs xs ys with
    | isTrue h => isTrue (h ▸ rfl)
    | isFalse h => isFalse (fun he => h (by injection he))
  | .null, .bool _ => isFalse (fun h => Json.noConfusion h)
  | .null, .num _ => isFalse (fun h => Json.noConfusion h)
  | .null, .str _ => isFalse (fun h => Json.noConfusion h)
  | .null, .arr _ => isFalse (fun h => Json.noConfusion h)
  | .null, .obj _ => isFalse (fun h => Json.noConfusion h)
  | .bool _, .null => isFalse (fun h => Json.noConfusion h)
  | .bool _, .num _ => isFalse (fun h => Json.noConfusion h)
  | .bool _, .str _ => isFalse (fun h => Json.noConfusion h)
  | .bool _, .arr _ => isFalse (fun h => Json.noConfusion h)
  | .bool _, .obj _ => isFalse (fun h => Json.noConfusion h)
  | .num _, .null => isFalse (fun h => Json.noConfusion h)
  | .num _, .bool _ => isFalse (fun h => Json.noConfusion h)
  | .num _, .str _ => isFalse (fun h => Json.noConfusion h)
  | .num _, .arr _ => isFalse (fun h => Json.noConfusion h)
  | .num _, .obj _ => isFalse (fun h => Json.noConfusion h)
  | .str _, .null => isFalse (fun h => Json.noConfusion h)
  | .str _, .bool _ => isFalse (fun h => Json.noConfusion h)
  | .str _, .num _ => isFalse (fun h => Json.noConfusion h)
  | .str _, .arr _ => isFalse (fun h => Json.noConfusion h)
  | .str _, .obj _ => isFalse (fun h => Json.noConfusion h)
  | .arr _, .null => isFalse (fun h => Json.noConfusion h)
  | .arr _, .bool _ => isFalse (fun h => Json.noConfusion h)
  | .arr _, .num _ => isFalse (fun h => Json.noConfusion h)
  | .arr _, .str _ => isFalse (fun h => Json.noConfusion h)
  | .arr _, .obj _ => isFalse (fun h => Json.noConfusion h)
  | .obj _, .null => isFalse (fun h => Json.noConfusion h)
  | .obj _, .bool _ => isFalse (fun h => Json.noConfusion h)
  | .obj _, .num _ => isFalse (fun h => Json.noConfusion h)
  | .obj _, .str _ => isFalse (fun h => Json.noConfusion h)
  | .obj _, .arr _ => isFalse (fun h => Json.noConfusion h)

def Json.jdecEqList : (xs ys : List Json) → Decidable (xs = ys)
  | [], [] => isTrue rfl
  | [], _ :: _ => isFalse (fun h => List.noConfusion h)
  | _ :: _, [] => isFalse (fun h => List.noConfusion h)
  | x :: xs, y :: ys =>
    match Json.jdecEq x y with
    | isTrue h1 =>
      match Json.jdecEqList xs ys with
      | isTrue h2 => isTrue (h1 ▸ h2 ▸ rfl)
      | isFalse h2 => isFalse (fun he => h2 (by injection he))
    | isFalse h1 => isFalse (fun he => h1 (by injection he))

def Json.jdecEqKvs : (xs ys : List (Json × Json)) → Decidable (xs = ys)
  | [], [] => isTrue rfl
  | [], _ :: _ => isFalse (fun h => List.noConfusion h)
  | _ :: _, [] => isFalse (fun h => List.noConfusion h)
  | (k1, v1) :: xs, (k2, v2) :: ys =>
    match Json.jdecEq k1 k2 with
    | isTrue hk =>
      match Json.jdecEq v1 v2 with
      | isTrue h1 =>
        match Json.jdecEqKvs xs ys with
        | isTrue h2 => isTrue (hk ▸ h1 ▸ h2 ▸ rfl)
        | isFalse h2 => isFalse (fun he => h2 (by injection he))
      | isFalse h1 => isFalse (fun he => h1 (by injection he with he1 he2; exact congrArg Prod.snd he1))
    | isFalse hk => isFalse (fun he => hk (by injection he with he1 he2; exact congrArg Prod.fst he1))

end

instance : DecidableEq Json := Json.jdecEq

/-- Python truthiness: None, False, 0, empty string/list/dict are falsy. -/
def truthy : Json → Bool
  | .null => false
  | .bool b => b
  | .num q => decide (q ≠ 0)
  | .str s => decide (s ≠ "")
  | .arr xs => decide (xs ≠ [])
  | .obj kvs => decide (kvs ≠ [])

/-- `a or b` in Python: the first operand when truthy, otherwise the second. -/
def pyOr (a b : Json) : Json := if truthy a then a else b

/-- Exceptions: a raised Python exception is an `Except.error` carrying the
exception class name. -/
abbrev Py (α : Type) := Except String α

/-- First binding of key `k` in a dict's entry list (dicts never hold a key
twice, so first-match lookup is exact). -/
def dlookup (kvs : List (Json × Json)) (k : Json) : Option Json :=
  match kvs.find? (fun kv => kv.fst = k) with
  | some kv => some kv.snd
  | none => none

/-- `d[k] = v` on a dict entry list: replace in place if the key is bound
(CPython keeps the original position), else append.  Raises TypeError on an
unhashable (list/dict) key. -/
def dset (kvs : List (Json × Json)) (k v : Json) : Py (List (Json × Json)) :=
  match k with
  | .arr _ => .error "TypeError"
  | .obj _ => .error "TypeError"
  | _ => .ok (go kvs)
where
  go : List (Json × Json) → List (Json × Json)
    | [] => [(k, v)]
    | (k0, v0) :: tl => if k0 = k then (k0, v) :: tl else (k0, v0) :: go tl

/-- `data.get(key, default)`: AttributeError unless `data` is a dict. -/
def jgetD (data : Json) (k : String) (d : Json) : Py Json :=
  match data with
  | .obj kvs => .ok ((dlookup kvs (.str k)).getD d)
  | _ => .error "AttributeError"

/-- `data.get(key)` — default None. -/
def jget (data : Json) (k : String) : Py Json := jgetD data k .null

/-- `for x in data`: list elements; a string iterates its characters; a dict
iterates its keys; other values raise TypeError. -/
def jiterList : Json → Py (List Json)
  | .arr xs => .ok xs
  | .str s => .ok (s.data.map (fun c => .str (String.singleton c)))
  | .obj kvs => .ok (kvs.map Prod.fst)
  | _ => .error "TypeError"

/-- `values[0]`: first element of a list (callers guard non-emptiness via
truthiness), first character of a string; everything else raises. -/
def jindex0 : Json → Py Json
  | .arr (x :: _) => .ok x
  | .arr [] => .error "IndexError"
  | .str s =>
    match s.data with
    | c :: _ => .ok (.str (String.singleton c))
    | [] => .error "IndexError"
  | .obj _ => .error "KeyError"
  | _ => .error "TypeError"

/-- isinstance(x, dict) -/
def isObj : Json → Bool
  | .obj _ => true
  | _ => false

/-- isinstance(x, list) -/
def isArr : Json → Bool
  | .arr _ => true
  | _ => false

/-- `float(x)`: numbers pass through exactly, booleans become 0/1, anything
else raises.  (Python also parses numeric strings; the claims only apply
this to numeric fields, so string parsing is modelled as the error case a
non-numeric string would raise.) -/
def pyFloat : Json → Py ℚ
  | .num q => .ok q
  | .bool b => .ok (if b then 1 else 0)
  | _ => .error "TypeError"

/-- Truncation toward zero, as Python `int()` applied to a float
(`Rat.floor`/`Rat.ceil` keep the definition kernel-computable). -/
def ratTrunc (q : ℚ) : ℤ := if 0 ≤ q then q.floor else q.ceil

/-- `int(x)`: truncates numbers toward zero, booleans become 0/1, anything
else raises (numeric strings as in `pyFloat`). -/
def pyInt : Json → Py ℤ
  | .num q => .ok (ratTrunc q)
  | .bool b => .ok (if b then 1 else 0)
  | _ => .error "TypeError"

/-- Decimal rendering of a non-integral rational whose denominator divides a
power of ten (the numbers produced by JSON float literals). -/
def decRender (q : ℚ) : String :=
  match (List.range 28).find? (fun k => ((q * (10 : ℚ) ^ k).den = 1)) with
  | some k =>
    let sign := if q < 0 then "-" else ""
    let n : ℕ := (|q| * (10 : ℚ) ^ k).num.toNat
    let ip := n / 10 ^ k
    let fp := n % 10 ^ k
    let fpDigits := toString fp
    let pad := String.mk (List.replicate (k - fpDigits.length) (Char.ofNat 48))
    sign ++ toString ip ++ "." ++ pad ++ fpDigits
  | none => toString q.num ++ "/" ++ toString q.den

/-- Python str() of a number: integral values render as ints (int/float are
conflated in the model), decimal fractions render with a decimal point. -/
def pyNumStr (q : ℚ) : String :=
  if q.den = 1 then toString q.num else decRender q

mutual

/-- Python `str(x)` / f-string interpolation. -/
def pyStr : Json → String
  | .null => "None"
  | .bool b => if b then "True" else "False"
  | .num q => pyNumStr q
  | .str s => s
  | .arr xs => "[" ++ pyReprList xs ++ "]"
  | .obj kvs => "\x7b" ++ pyReprKvs kvs ++ "\x7d"

/-- Python `repr(x)`: like str, but strings are quoted (as inside
containers). -/
def pyRepr : Json → String
  | .str s => "\x27" ++ s ++ "\x27"
  | .null => "None"
  | .bool b => if b then "True" else "False"
  | .num q => pyNumStr q
  | .arr xs => "[" ++ pyReprList xs ++ "]"
  | .obj kvs => "\x7b" ++ pyReprKvs kvs ++ "\x7d"

def pyReprList : List Json → String
  | [] => ""
  | [x] => pyRepr x
  | x :: y :: tl => pyRepr x ++ ", " ++ pyReprList (y :: tl)

def pyReprKvs : List (Json × Json) → String
  | [] => ""
  | [(k, v)] => pyRepr k ++ ": " ++ pyRepr v
  | (k, v) :: e :: tl => pyRepr k ++ ": " ++ pyRepr v ++ ", " ++ pyReprKvs (e :: tl)

end

/-- The whitespace characters of `str.strip()` / regex `\s` (ASCII range). -/
def isPySpace (c : Char) : Bool :=
  c = ' ' ∨ c = '\t' ∨ c = '\n' ∨ c = '\x0d' ∨ c = '\x0b' ∨ c = '\x0c'

/-- Python `str.strip()`. -/
def pyStrip (s : String) : String :=
  String.mk (((s.data.dropWhile isPySpace).reverse.dropWhile isPySpace).reverse)

/-! ## Regex matchers

The spider uses three concrete regular expressions; each is implemented
directly as a character-list matcher.  Maximal-munch scanning is exact for
these patterns: no alternative begins with a digit or with whitespace, so
backtracking into a greedy `\d+` / `\s*` run can never succeed. -/

/-- ASCII decimal digit, regex `\d` (restricted to ASCII; the crawled data
has no non-ASCII digits). -/
def isDig (c : Char) : Bool := '0' ≤ c ∧ c ≤ '9'

/-- Lowercasing for `re.IGNORECASE`: ASCII letters and the Cyrillic range
А..Я (plus Ё) — the only letters in the patterns. -/
def lowerCh (c : Char) : Char :=
  if 'A' ≤ c ∧ c ≤ 'Z' then Char.ofNat (c.toNat + 32)
  else if 'А' ≤ c ∧ c ≤ 'Я' then Char.ofNat (c.toNat + 32)
  else if c = 'Ё' then 'ё'
  else c

/-- Regex word character `\w` (ASCII letters/digits/underscore and Cyrillic
letters — the alphabets occurring in the crawled data). -/
def isWordCh (c : Char) : Bool :=
  ('0' ≤ c ∧ c ≤ '9') ∨ ('A' ≤ c ∧ c ≤ 'Z') ∨ ('a' ≤ c ∧ c ≤ 'z') ∨ c = '_' ∨
    (0x400 ≤ c.toNat ∧ c.toNat ≤ 0x4FF)

/-- Consume `\d+(?:[.,]\d+)?\s*` from the front: returns the rest after the
number, the optional fraction and the whitespace run, or none if there is no
leading digit. -/
def afterNumberWs (cs : List Char) : Option (List Char) :=
  match cs.span isDig with
  | (ds, rest1) =>
    if ds.isEmpty then none
    else
      let rest2 :=
        match rest1 with
        | c :: tl =>
          if (c = '.' ∨ c = ',') ∧ (tl.headD ' ' |> isDig) then tl.dropWhile isDig
          else rest1
        | [] => rest1
      some (rest2.dropWhile isPySpace)

/-- The unit alternatives of the title-volume pattern, in source order:
`л|л\.|мл|ml|l|литр|миллилитр`. -/
def titleVolumeUnits : List (List Char) :=
  ["л".data, "л.".data, "мл".data, "ml".data, "l".data, "литр".data, "миллилитр".data]

/-- Match of `\d+(?:[.,]\d+)?\s*(?:л|л\.|мл|ml|l|литр|миллилитр)` anchored at
the front of an already-lowercased character list. -/
def titleVolumeAt (cs : List Char) : Bool :=
  match afterNumberWs cs with
  | some rest => titleVolumeUnits.any (fun u => u.isPrefixOf rest)
  | none => false

/-- `re.search` of the title-volume pattern over a lowercased list. -/
def titleVolumeSearch : List Char → Bool
  | [] => false
  | c :: tl => titleVolumeAt (c :: tl) || titleVolumeSearch tl

/-- Units of the subname-volume pattern `(л|л\.|мл|ml|l)\b`, source order. -/
def subnameVolumeUnits : List (List Char) :=
  ["л".data, "л.".data, "мл".data, "ml".data, "l".data]

/-- Word-boundary test after a unit: the next original character (if any)
must not be a word character (the unit itself ends in a letter). -/
def boundaryOk : List Char → Bool
  | [] => true
  | c :: _ => !isWordCh c

/-- Match `(\d+(?:[.,]\d+)?)\s*(л|л\.|мл|ml|l)\b` anchored at the front of
the original (non-lowercased) characters, returning the matched text
(`group(0)`).  Units are compared case-insensitively, alternatives tried in
source order. -/
def subnameVolumeAt (cs : List Char) : Option (List Char) :=
  match afterNumberWs cs with
  | none => none
  | some rest =>
    match subnameVolumeUnits.find?
        (fun u => u.isPrefixOf (rest.map lowerCh) && boundaryOk (rest.drop u.length)) with
    | some u =>
      some ((cs.take (cs.length - rest.length)) ++ rest.take u.length)
    | none => none

/-- Leftmost `re.search` for the subname-volume pattern, returning the
matched text of the first (leftmost) position that matches. -/
def subnameVolumeSearch : List Char → Option (List Char)
  | [] => none
  | c :: tl =>
    match subnameVolumeAt (c :: tl) with
    | some m => some m
    | none => subnameVolumeSearch tl

/-- Character class `[A-Za-zА-Яа-я\s]` of the brand heuristic. -/
def isBrandCh (c : Char) : Bool :=
  ('A' ≤ c ∧ c ≤ 'Z') ∨ ('a' ≤ c ∧ c ≤ 'z') ∨ ('А' ≤ c ∧ c ≤ 'Я') ∨
    ('а' ≤ c ∧ c ≤ 'я') ∨ isPySpace c

/-- The lookahead alternation `(?:\s+\d+|\s+пиво|\s+вино)` anchored at the
front: at least one whitespace, then a digit or one of the two literals
(case-insensitive). -/
def brandAltAt (cs : List Char) : Bool :=
  match cs with
  | [] => false
  | c :: _ =>
    isPySpace c &&
      (let r := cs.dropWhile isPySpace
       (r.headD ' ' |> isDig) || "пиво".data.isPrefixOf (r.map lowerCh) ||
         "вино".data.isPrefixOf (r.map lowerCh))

/-- `re.match(r'^([A-Za-zА-Яа-я\s]+?)(?:\s+\d+|\s+пиво|\s+вино)', name)`:
the lazy group takes the shortest non-empty class-character run after which
the alternation matches; the scan extends the candidate prefix one class
character at a time. -/
def brandScan (pre : List Char) : List Char → Option (List Char)
  | [] => none
  | c :: tl =>
    if isBrandCh c then
      if brandAltAt tl then some (pre ++ [c]) else brandScan (pre ++ [c]) tl
    else none

/-! ## spiders/alkoteka_spider.py — field extraction helpers -/

/-- Insert-or-replace under a string key (total: string keys are hashable). -/
def dsetS (kvs : List (Json × Json)) (k : String) (v : Json) : List (Json × Json) :=
  match kvs with
  | [] => [(.str k, v)]
  | (k0, v0) :: tl => if k0 = .str k then (k0, v) :: tl else (k0, v0) :: dsetS tl k v

/-- `key in d` for a dict entry list. -/
def dmem (kvs : List (Json × Json)) (k : Json) : Bool := (dlookup kvs k).isSome

/-- `_check_volume_in_title` (lines 421-425): case-insensitive search for
`\d+(?:[.,]\d+)?\s*(?:л|л\.|мл|ml|l|литр|миллилитр)`. -/
def check_volume_in_title (title : String) : Bool :=
  titleVolumeSearch (title.data.map lowerCh)

/-- The filter-label scan shared by `_extract_volume` and `_extract_brand`:
first dict entry whose filter field equals `key` yields its title
(default empty string). -/
def filterLabelFirst (key : String) : List Json → Option Json
  | [] => none
  | l :: tl =>
    match l with
    | .obj kvs =>
      if (dlookup kvs (.str "filter")).getD .null = .str key then
        some ((dlookup kvs (.str "title")).getD (.str ""))
      else filterLabelFirst key tl
    | _ => filterLabelFirst key tl

/-- `_extract_volume` (lines 645-664): volume-typed filter label's title,
else the subname regex match (`group(0)`), else None. -/
def extract_volume (data : Json) : Py Json := do
  let labels ← jgetD data "filter_labels" (.arr [])
  let ls ← jiterList labels
  match filterLabelFirst "obem" ls with
  | some t => pure t
  | none => do
    let subname ← jgetD data "subname" (.str "")
    if truthy subname then
      match subname with
      | .str s =>
        match subnameVolumeSearch s.data with
        | some m => pure (.str (String.mk m))
        | none => pure .null
      | _ => .error "TypeError"
    else pure .null

/-- The action-label loop of `_extract_marketing_tags` (lines 684-688):
name/text/title of each dict label, appended unless falsy or already
present. -/
def actionLabelLoop : List Json → List Json → List Json
  | [], tags => tags
  | l :: tl, tags =>
    match l with
    | .obj kvs =>
      let nm := pyOr ((dlookup kvs (.str "name")).getD .null)
        (pyOr ((dlookup kvs (.str "text")).getD .null)
          ((dlookup kvs (.str "title")).getD (.str "")))
      if truthy nm ∧ nm ∉ tags then actionLabelLoop tl (tags ++ [nm])
      else actionLabelLoop tl tags
    | _ => actionLabelLoop tl tags

/-- `_extract_marketing_tags` (lines 666-690): fixed labels for the five
boolean flags, then action-label names. -/
def extract_marketing_tags (data : Json) : Py (List Json) := do
  let vNew ← jget data "new"
  let tags := if truthy vNew then [Json.str "Новинка"] else []
  let vRec ← jget data "recomended"
  let tags := tags ++ (if truthy vRec then [Json.str "Рекомендуемое"] else [])
  let vAx ← jget data "axioma"
  let tags := tags ++ (if truthy vAx then [Json.str "Axioma"] else [])
  let vEn ← jget data "enogram"
  let tags := tags ++ (if truthy vEn then [Json.str "Enogram"] else [])
  let vGp ← jget data "gift_package"
  let tags := tags ++ (if truthy vGp then [Json.str "Подарочная упаковка"] else [])
  let als ← jgetD data "action_labels" (.arr [])
  let ls ← jiterList als
  pure (actionLabelLoop ls tags)

/-- `_extract_brand` (lines 692-708): brand-typed filter label's title, else
the anchored heuristic on the name, else empty string. -/
def extract_brand (data : Json) : Py Json := do
  let labels ← jgetD data "filter_labels" (.arr [])
  let ls ← jiterList labels
  match filterLabelFirst "brend" ls with
  | some t => pure t
  | none => do
    let name ← jgetD data "name" (.str "")
    if truthy name then
      match name with
      | .str s =>
        match brandScan [] s.data with
        | some g => pure (.str (pyStrip (String.mk g)))
        | none => pure (.str "")
      | _ => .error "TypeError"
    else pure (.str "")

/-- `_extract_section` (lines 710-726): parent category name (when the
parent is a dict with a truthy name) then category name. -/
def extract_section (data : Json) : Py (List Json) := do
  let category ← jgetD data "category" (.obj [])
  match category with
  | .obj kvs =>
    let parent := (dlookup kvs (.str "parent")).getD (.obj [])
    let s1 : List Json :=
      match parent with
      | .obj pkvs =>
        let pn := (dlookup pkvs (.str "name")).getD .null
        if truthy pn then [pn] else []
      | _ => []
    let cn := (dlookup kvs (.str "name")).getD .null
    pure (if truthy cn then s1 ++ [cn] else s1)
  | _ => pure []

/-- Python `round()` on an exact rational: nearest integer, ties to even. -/
def pyRound (q : ℚ) : ℤ :=
  let f := q.floor
  let r := q - f
  if r < 1 / 2 then f
  else if 1 / 2 < r then f + 1
  else if f % 2 = 0 then f else f + 1

/-- `_extract_price_data` (lines 728-744): current and original prices with
truthiness fallbacks and the discount sale tag. -/
def extract_price_data (data : Json) : Py Json := do
  let p1 ← jgetD data "price" (.num 0)
  let current ← pyFloat (pyOr p1 (.num 0))
  let pp ← jget data "prev_price"
  let p2 ← jgetD data "price" (.num 0)
  let original ← pyFloat (pyOr pp (pyOr p2 (.num 0)))
  let sale : Json :=
    if original > current ∧ original > 0 then
      .str ("Скидка " ++ toString (pyRound (((original - current) / original) * 100)) ++ "%")
    else .str ""
  pure (.obj [(.str "current", .num current), (.str "original", .num original),
    (.str "sale_tag", sale)])

/-- `_extract_stock` (lines 746-752). -/
def extract_stock (data : Json) : Py Json := do
  let avail ← jgetD data "available" (.bool false)
  let q1 ← jgetD data "quantity" (.num 0)
  let q2 ← jgetD data "quantity_total" (.num 0)
  let count ← pyInt (pyOr q1 (pyOr q2 (.num 0)))
  pure (.obj [(.str "in_stock", .bool (truthy avail)), (.str "count", .num (count : ℚ))])

/-- `_extract_assets` (lines 754-764). -/
def extract_assets (data : Json) : Py Json := do
  let mi ← jgetD data "image_url" (.str "")
  pure (.obj [(.str "main_image", mi),
    (.str "set_images", if truthy mi then .arr [mi] else .arr []),
    (.str "view360", .arr []), (.str "video", .arr [])])

/-- The filter-label loop of `_extract_basic_metadata` (lines 783-793). -/
def basicLabelLoop : List Json → List (Json × Json) → List (Json × Json)
  | [], m => m
  | l :: tl, m =>
    match l with
    | .obj kvs =>
      let ft := (dlookup kvs (.str "filter")).getD (.str "")
      let title := (dlookup kvs (.str "title")).getD (.str "")
      if ft = .str "strana" ∧ truthy title then basicLabelLoop tl (dsetS m "Страна" title)
      else if ft = .str "obem" ∧ truthy title then basicLabelLoop tl (dsetS m "Объем" title)
      else basicLabelLoop tl m
    | _ => basicLabelLoop tl m

/-- `_extract_basic_metadata` (lines 766-795). -/
def extract_basic_metadata (data : Json) : Py (List (Json × Json)) := do
  let sub ← jgetD data "subname" (.str "")
  let m := dsetS [] "__description" sub
  let vc ← jget data "vendor_code"
  let m := if truthy vc then dsetS m "Артикул" (.str (pyStr vc)) else m
  let uu ← jget data "uuid"
  let m := if truthy uu then dsetS m "UUID" uu else m
  let qt ← jget data "quantity_total"
  let m := if truthy qt then dsetS m "Общее количество" (.str (pyStr qt)) else m
  let labels ← jgetD data "filter_labels" (.arr [])
  let ls ← jiterList labels
  pure (basicLabelLoop ls m)

/-- `_count_variants` (lines 797-813): distinct observed volume minima,
short-circuiting to 2 on a block with distinct min/max. -/
def countVariantsLoop : List Json → List Json → Py ℤ
  | [], vols => pure (if vols.length > 1 then (vols.length : ℤ) else 0)
  | b :: tl, vols => do
    let code ← jget b "code"
    if code = .str "obem" then do
      let mn ← jget b "min"
      let mx ← jget b "max"
      if mn ≠ mx ∧ mx ≠ .null then pure 2
      else if mn ≠ .null then
        match mn with
        | .arr _ => .error "TypeError"
        | .obj _ => .error "TypeError"
        | _ => countVariantsLoop tl (if mn ∈ vols then vols else vols ++ [mn])
      else countVariantsLoop tl vols
    else countVariantsLoop tl vols

/-- `_count_variants` entry point. -/
def count_variants (data : Json) : Py ℤ := do
  let blocks ← jgetD data "description_blocks" (.arr [])
  let ls ← jiterList blocks
  countVariantsLoop ls []

/-! ## spiders/alkoteka_spider.py — product builders -/

/-- An emitted item: the entry list of the AlkotekaItem, in assignment
order.  `int(time.time())` is the explicit clock argument `now`. -/
abbrev Item := List (Json × Json)

/-- The title rule shared by both builders (lines 446-451 and 503-518 after
the volume has been computed): append `", <volume>"` only when the volume
pattern is absent from the name and the volume is truthy. -/
def titleStep (t : String) (volume : Json) : String :=
  if check_volume_in_title t then t
  else if truthy volume then t ++ ", " ++ pyStr volume else t

/-- `_parse_product_from_list` (lines 427-477). -/
def parse_product_from_list (data : Json) (now : ℤ) : Py (Option Item) := do
  if ¬truthy data then pure none
  else do
    let uuidv ← jget data "uuid"
    let rpc := Json.str (pyStr (pyOr uuidv (.str "")))
    let url ← jgetD data "product_url" (.str "")
    let nameJ ← jgetD data "name" (.str "")
    let volume ← extract_volume data
    let title ← match nameJ with
      | .str s => pure (Json.str (titleStep s volume))
      | _ => .error "TypeError"
    let tags ← extract_marketing_tags data
    let brand ← extract_brand data
    let sect ← extract_section data
    let price ← extract_price_data data
    let stock ← extract_stock data
    let assets ← extract_assets data
    let meta ← extract_basic_metadata data
    pure (some [(.str "timestamp", .num (now : ℚ)), (.str "RPC", rpc), (.str "url", url),
      (.str "title", title), (.str "marketing_tags", .arr tags), (.str "brand", brand),
      (.str "section", .arr sect), (.str "price_data", price), (.str "stock", stock),
      (.str "assets", assets), (.str "metadata", .obj meta), (.str "variants", .num 0)])

/-- The volume loop over description blocks in the detail title rule
(lines 508-512): first volume block decides (break), yielding
`"<min> л"` when its min is not None. -/
def detail_title_volume : List Json → Py Json
  | [] => pure .null
  | b :: tl => do
    let code ← jget b "code"
    if code = .str "obem" then do
      let mn ← jget b "min"
      if mn ≠ .null then pure (.str (pyStr mn ++ " л")) else pure .null
    else detail_title_volume tl

/-- The additional-filter-label tag loop of the detail builder
(lines 525-531). -/
def detail_filter_tags : List Json → List Json → List Json
  | [], tags => tags
  | l :: tl, tags =>
    match l with
    | .obj kvs =>
      let ft := (dlookup kvs (.str "filter")).getD (.str "")
      if ft = .str "dopolnitelno" then
        let tt := (dlookup kvs (.str "title")).getD (.str "")
        if truthy tt ∧ tt ∉ tags then detail_filter_tags tl (tags ++ [tt])
        else detail_filter_tags tl tags
      else detail_filter_tags tl tags
    | _ => detail_filter_tags tl tags

/-- The brand loop over description blocks (lines 536-542): first brand
block decides (break); its first value's name when that value is a dict. -/
def detail_brand_from_blocks : List Json → Py Json
  | [] => pure (.str "")
  | b :: tl => do
    let code ← jget b "code"
    if code = .str "brend" then do
      let values ← jgetD b "values" (.arr [])
      if truthy values then do
        let v0 ← jindex0 values
        if isObj v0 then jgetD v0 "name" (.str "") else pure (.str "")
      else pure (.str "")
    else detail_brand_from_blocks tl

/-- The description text-block loop (lines 565-568): content of the first
block titled Описание. -/
def description_from_text_blocks : List Json → Py (Option Json)
  | [] => pure none
  | b :: tl => do
    let t ← jget b "title"
    if t = .str "Описание" then do
      let c ← jgetD b "content" (.str "")
      pure (some c)
    else description_from_text_blocks tl

/-- values[0].get('name','') when the block's values list is truthy and its
first element is a dict (the shape shared by the four coded branches of
the metadata loop). -/
def valuesFirstName (b : Json) : Py (Option Json) := do
  let values ← jgetD b "values" (.arr [])
  if truthy values then do
    let v0 ← jindex0 values
    if isObj v0 then do
      let nm ← jgetD v0 "name" (.str "")
      pure (some nm)
    else pure none
  else pure none

/-- The characteristic-block metadata loop (lines 574-613). -/
def detail_blocks_metadata : List Json → List (Json × Json) → Py (List (Json × Json))
  | [], m => pure m
  | b :: tl, m => do
    let code ← jgetD b "code" (.str "")
    let title ← jgetD b "title" (.str "")
    if code = .str "obem" then do
      let mn ← jget b "min"
      let m := if mn ≠ .null then dsetS m "Объем" (.str (pyStr mn ++ " л")) else m
      detail_blocks_metadata tl m
    else if code = .str "krepost" then do
      let mn ← jget b "min"
      let m := if mn ≠ .null then dsetS m "Крепость" (.str (pyStr mn ++ "%")) else m
      detail_blocks_metadata tl m
    else if code = .str "proizvoditel" then do
      let r ← valuesFirstName b
      detail_blocks_metadata tl (match r with | some nm => dsetS m "Производитель" nm | none => m)
    else if code = .str "brend" then do
      let r ← valuesFirstName b
      detail_blocks_metadata tl (match r with | some nm => dsetS m "Бренд" nm | none => m)
    else if code = .str "strana" then do
      let r ← valuesFirstName b
      detail_blocks_metadata tl (match r with | some nm => dsetS m "Страна" nm | none => m)
    else if code = .str "vid-upakovki" then do
      let r ← valuesFirstName b
      detail_blocks_metadata tl (match r with | some nm => dsetS m "Вид упаковки" nm | none => m)
    else if truthy title then do
      let values ← jgetD b "values" (.arr [])
      if truthy values then do
        let v0 ← jindex0 values
        if isObj v0 then do
          let nm ← jgetD v0 "name" (.str "")
          let m ← dset m title nm
          detail_blocks_metadata tl m
        else do
          let m ← dset m title (.str (pyStr v0))
          detail_blocks_metadata tl m
      else detail_blocks_metadata tl m
    else detail_blocks_metadata tl m

/-- The scalar-extras block of the detail builder (lines 615-636): vendor
code, country name/code, uuid, total quantity, gift package and offline
price. -/
def detail_extras (d : Json) (m : List (Json × Json)) : Py (List (Json × Json)) := do
  let vc ← jget d "vendor_code"
  let m := if truthy vc then dsetS m "Артикул" (.str (pyStr vc)) else m
  let cn ← jget d "country_name"
  let m := if truthy cn then (if dmem m (.str "Страна") then m else dsetS m "Страна" cn) else m
  let cc ← jget d "country_code"
  let m := if truthy cc then dsetS m "Код страны" cc else m
  let uu ← jget d "uuid"
  let m := if truthy uu then dsetS m "UUID" uu else m
  let qt ← jget d "quantity_total"
  let m := if truthy qt then dsetS m "Общее количество" (.str (pyStr qt)) else m
  let gp ← jget d "gift_package"
  let m := if gp ≠ .null then dsetS m "Подарочная упаковка" (.str (if truthy gp then "Да" else "Нет")) else m
  let op ← jget d "offline_price"
  let m := if truthy op then dsetS m "Офлайн цена" (.str (pyStr op)) else m
  pure m

/-- `_parse_product_from_detail` (lines 479-643). -/
def parse_product_from_detail (detail_data list_data : Json) (now : ℤ) : Py (Option Item) := do
  if ¬truthy detail_data then parse_product_from_list list_data now
  else do
    let uuidv ← jget detail_data "uuid"
    let rpc := Json.str (pyStr (pyOr uuidv (.str "")))
    let url ← jgetD list_data "product_url" (.str "")
    let nameJ ← jgetD detail_data "name" (.str "")
    let title ← match nameJ with
      | .str s =>
        if check_volume_in_title s then pure (Json.str s)
        else do
          let blocks ← jgetD detail_data "description_blocks" (.arr [])
          let bl ← jiterList blocks
          let v1 ← detail_title_volume bl
          let volume ← if truthy v1 then pure v1 else extract_volume detail_data
          if truthy volume then pure (Json.str (s ++ ", " ++ pyStr volume))
          else pure (Json.str s)
      | _ => .error "TypeError"
    let tags0 ← extract_marketing_tags detail_data
    let fl ← jgetD detail_data "filter_labels" (.arr [])
    let fls ← jiterList fl
    let tags := detail_filter_tags fls tags0
    let blocks2 ← jgetD detail_data "description_blocks" (.arr [])
    let bls ← jiterList blocks2
    let brand0 ← detail_brand_from_blocks bls
    let brand ← if truthy brand0 then pure brand0 else extract_brand detail_data
    let sect ← extract_section detail_data
    let price ← extract_price_data detail_data
    let stock ← extract_stock detail_data
    let assets ← extract_assets detail_data
    let tb ← jgetD detail_data "text_blocks" (.arr [])
    let tbs ← jiterList tb
    let descr ← description_from_text_blocks tbs
    let d0 ← match descr with
      | some c => pure c
      | none => jgetD detail_data "subname" (.str "")
    let m1 ← detail_blocks_metadata bls [(.str "__description", d0)]
    let m2 ← detail_extras detail_data m1
    let variants ← count_variants detail_data
    pure (some [(.str "timestamp", .num (now : ℚ)), (.str "RPC", rpc), (.str "url", url),
      (.str "title", title), (.str "marketing_tags", .arr tags), (.str "brand", brand),
      (.str "section", .arr sect), (.str "price_data", price), (.str "stock", stock),
      (.str "assets", assets), (.str "metadata", .obj m2), (.str "variants", .num (variants : ℚ))])

/-! ## spiders/alkoteka_spider.py — response handlers

A fetched response is embedded as its status code together with the outcome
of `json.loads` on its body: `none` for a body that raises JSONDecodeError,
`some data` for a parsed value.  Emitted items are the returned list;
resubmitted requests are modelled by the retry-decision functions. -/

/-- `item = self._parse_product_from_list(data); if item: yield item` — the
list-only emission used both by the fallback paths and by
`parse_product_list` (lines 341-345). -/
def yield_list_item (data : Json) (now : ℤ) : Py (List Json) := do
  match ← parse_product_from_list data now with
  | some item => pure [Json.obj item]
  | none => pure []

/-- `parse_product_detail` (lines 357-404): the items the callback yields
for one response paired with its list record. -/
def parse_product_detail (status : ℕ) (parsed : Option Json) (list_data : Json)
    (now : ℤ) : Py (List Json) := do
  if status ≠ 200 then
    if truthy list_data then yield_list_item list_data now else pure []
  else
    match parsed with
    | none => if truthy list_data then yield_list_item list_data now else pure []
    | some data => do
      let succ ← jget data "success"
      if ¬truthy succ then
        if truthy list_data then yield_list_item list_data now else pure []
      else do
        let pd ← jgetD data "results" (.obj [])
        match ← parse_product_from_detail pd list_data now with
        | some item => pure [Json.obj item]
        | none => pure []

/-- `handle_product_error` (lines 406-419): the errback for detail
requests falls back to the paired list record. -/
def handle_product_error (list_data : Json) (now : ℤ) : Py (List Json) :=
  if truthy list_data then yield_list_item list_data now else pure []

/-- The non-200 branch of `parse_product_list` (lines 271-286): `some rc`
is a resubmission carrying retry counter `rc`, `none` drops the request
with a logged warning (the function body has no other exit: no exception
is raised and nothing fatal is signalled). -/
def parse_product_list_failure (status : ℕ) (retry_count : ℕ) : Option ℕ :=
  if status = 403 ∨ status = 429 then
    if retry_count < 3 then some (retry_count + 1) else none
  else none

/-- `handle_error` (lines 815-831): the generic errback.  `respStatus` is
the status of the failure's attached response when one exists.  `some rc`
is a resubmission, `none` a drop with a logged error. -/
def handle_error (respStatus : Option ℕ) (retry_count : ℕ) : Option ℕ :=
  match respStatus with
  | some s =>
    if s = 403 ∨ s = 429 ∨ s = 503 then
      if retry_count < 3 then some (retry_count + 1) else none
    else none
  | none => none

/-! ## spiders/alkoteka_spider.py — city resolution -/

/-- Spider state read by `parse_cities`: the accumulated city dicts, the
current city identifier (None before resolution) and the two configured
values. -/
structure CityState where
  cities_found : List Json
  city_uuid : Json
  target_city_name : String
  initial_city_uuid : String
  deriving Repr

/-- What `parse_cities` does after handling one response: start category
parsing, or request the next city page. -/
inductive CityAction where
  | startCategories
  | nextPage (page : Json)
  deriving Repr, DecidableEq

/-- Result of one `parse_cities` call: updated accumulator, the city
identifier now recorded on the spider, and the continuation. -/
structure CitiesOutcome where
  cities_found : List Json
  city_uuid : Json
  action : CityAction
  deriving Repr

/-- The city collection loop (lines 110-125): build the (name, uuid, slug)
info dict, deduplicate by equality, and record the uuid of the city whose
name equals the target. -/
def cityLoop (target : String) : List Json → List Json → Json → Py (List Json × Json)
  | [], found, uuid => pure (found, uuid)
  | c :: tl, found, uuid => do
    let nm ← jget c "name"
    let uu ← jget c "uuid"
    let sl ← jget c "slug"
    let info := Json.obj [(.str "name", nm), (.str "uuid", uu), (.str "slug", sl)]
    let found := if info ∈ found then found else found ++ [info]
    let uuid := if nm = .str target then uu else uuid
    cityLoop target tl found uuid

/-- `parse_cities` (lines 78-172). -/
def parse_cities (status : ℕ) (parsed : Option Json) (st : CityState) : Py CitiesOutcome := do
  if status ≠ 200 then
    pure ⟨st.cities_found, .str st.initial_city_uuid, .startCategories⟩
  else
    match parsed with
    | none => pure ⟨st.cities_found, .str st.initial_city_uuid, .startCategories⟩
    | some data => do
      let succ ← jget data "success"
      if ¬truthy succ then
        pure ⟨st.cities_found, .str st.initial_city_uuid, .startCategories⟩
      else do
        let results ← jgetD data "results" (.arr [])
        let cities ← jiterList results
        let (found, uuid) ← cityLoop st.target_city_name cities st.cities_found st.city_uuid
        let meta ← jgetD data "meta" (.obj [])
        let currentPage ← jgetD meta "current_page" (.num 1)
        let hasMore ← jgetD meta "has_more_pages" (.bool false)
        if ¬truthy uuid ∧ truthy hasMore then
          match currentPage with
          | .num q => pure ⟨found, uuid, .nextPage (.num (q + 1))⟩
          | .bool b => pure ⟨found, uuid, .nextPage (.num ((if b then 1 else 0) + 1))⟩
          | _ => .error "TypeError"
        else
          let uuid := if truthy uuid then uuid else .str st.initial_city_uuid
          pure ⟨found, uuid, .startCategories⟩

/-! ## pipelines.py — ValidationPipeline -/

/-- The required_fields dict of `ValidationPipeline.process_item`
(lines 26-53), in literal order. -/
def required_fields : List (String × Json) :=
  [("timestamp", .num 0), ("RPC", .str ""), ("url", .str ""), ("title", .str ""),
   ("marketing_tags", .arr []), ("brand", .str ""), ("section", .arr []),
   ("price_data", .obj [(.str "current", .num 0), (.str "original", .num 0),
     (.str "sale_tag", .str "")]),
   ("stock", .obj [(.str "in_stock", .bool false), (.str "count", .num 0)]),
   ("assets", .obj [(.str "main_image", .str ""), (.str "set_images", .arr []),
     (.str "view360", .arr []), (.str "video", .arr [])]),
   ("metadata", .obj [(.str "__description", .str "")]),
   ("variants", .num 0)]

/-- Lines 56-59: `if field not in item: item[field] = default`. -/
def fill_defaults (item : Item) : Item :=
  required_fields.foldl (fun it kd => if dmem it (.str kd.fst) then it else dsetS it kd.fst kd.snd) item

/-- Apply `f` to the entries of the dict stored under `item[k]` (the nested
mutations of `_validate_types`; every call site has just coerced `item[k]`
to a dict, so the non-dict branch is unreachable and is a no-op here). -/
def updObj (item : Item) (k : String) (f : List (Json × Json) → List (Json × Json)) : Item :=
  match dlookup item (.str k) with
  | some (.obj kvs) => dsetS item k (.obj (f kvs))
  | _ => item

/-- Lines 78-80: `if not isinstance(item.get(field), list): item[field] = []`. -/
def coerceList (it : Item) (f : String) : Item :=
  if isArr ((dlookup it (.str f)).getD .null) then it else dsetS it f (.arr [])

/-- Lines 83-85: `if not isinstance(item.get(field), dict): item[field] = {}`. -/
def coerceObj (it : Item) (f : String) : Item :=
  if isObj ((dlookup it (.str f)).getD .null) then it else dsetS it f (.obj [])

/-- One step of lines 88-93: set a missing or non-list sub-field to []. -/
def assetSubStep (a : List (Json × Json)) (sf : String) : List (Json × Json) :=
  match dlookup a (.str sf) with
  | none => dsetS a sf (.arr [])
  | some v => if isArr v then a else dsetS a sf (.arr [])

/-- Lines 88-93: ensure the three assets sub-fields are lists. -/
def fillAssetsSub (kvs : List (Json × Json)) : List (Json × Json) :=
  ["set_images", "view360", "video"].foldl assetSubStep kvs

/-- Lines 96-101: ensure price_data has current, original and sale_tag. -/
def fillPrice (kvs : List (Json × Json)) : List (Json × Json) :=
  let kvs := ["current", "original"].foldl
    (fun a f => if dmem a (.str f) then a else dsetS a f (.num 0)) kvs
  if dmem kvs (.str "sale_tag") then kvs else dsetS kvs "sale_tag" (.str "")

/-- Lines 104-108: ensure stock has in_stock and count. -/
def fillStock (kvs : List (Json × Json)) : List (Json × Json) :=
  let kvs := if dmem kvs (.str "in_stock") then kvs else dsetS kvs "in_stock" (.bool false)
  if dmem kvs (.str "count") then kvs else dsetS kvs "count" (.num 0)

/-- `ValidationPipeline._validate_types` (lines 74-108): coerce list/dict
fields, then fill the nested defaults of assets, price_data and stock. -/
def validate_types (item : Item) : Item :=
  let item := ["marketing_tags", "section"].foldl coerceList item
  let item := ["price_data", "stock", "assets", "metadata"].foldl coerceObj item
  let item := updObj item "assets" fillAssetsSub
  let item := updObj item "price_data" fillPrice
  let item := updObj item "stock" fillStock
  item

/-- `ValidationPipeline.process_item` (lines 22-72): fill missing fields
with their defaults, then validate types.  Total — validation never
rejects an item. -/
def validation_process_item (item : Item) : Item :=
  validate_types (fill_defaults item)

/-! ## pipelines.py — DataCleaningPipeline -/

/-- `list(dict.fromkeys(xs))`: first-occurrence deduplication; an
unhashable (list/dict) element raises TypeError. -/
def dedupFirst : List Json → List Json → Py (List Json)
  | acc, [] => pure acc
  | acc, x :: tl =>
    match x with
    | .arr _ => .error "TypeError"
    | .obj _ => .error "TypeError"
    | _ => if x ∈ acc then dedupFirst acc tl else dedupFirst (acc ++ [x]) tl

/-- Substring occurrence over character lists. -/
def listInfixCh (needle : List Char) : List Char → Bool
  | [] => needle.isEmpty
  | c :: tl => needle.isPrefixOf (c :: tl) || listInfixCh needle tl

/-- `key in container` for an arbitrary container (list membership, dict
key membership, substring for strings); TypeError otherwise. -/
def jHasMem (container : Json) (k : String) : Py Bool :=
  match container with
  | .obj kvs => pure (dmem kvs (.str k))
  | .arr xs => pure (decide ((Json.str k) ∈ xs))
  | .str s => pure (listInfixCh k.data s.data)
  | _ => .error "TypeError"

/-- `float(x)` under `except (TypeError, ValueError): 0.0` (lines 136-139). -/
def cleanFloat (v : Json) : Json :=
  match pyFloat v with
  | .ok q => .num q
  | .error _ => .num 0

/-- `int(x)` under `except (TypeError, ValueError): 0` (lines 142-145). -/
def cleanInt (v : Json) : Json :=
  match pyInt v with
  | .ok n => .num (n : ℚ)
  | .error _ => .num 0

/-- One string field of lines 119-122: strip a present truthy value. -/
def cleanStrStep (it : Item) (f : String) : Item :=
  match dlookup it (.str f) with
  | some v => if truthy v then dsetS it f (.str (pyStrip (pyStr v))) else it
  | none => it

/-- Lines 119-122: strip the four text fields. -/
def cleanStrings (it : Item) : Item :=
  ["RPC", "url", "title", "brand"].foldl cleanStrStep it

/-- Lines 125-126: deduplicate marketing_tags. -/
def cleanTags (item : Item) : Py Item :=
  match dlookup item (.str "marketing_tags") with
  | some v => do
    let xs ← jiterList v
    let ys ← dedupFirst [] xs
    pure (dsetS item "marketing_tags" (.arr ys))
  | none => pure item

/-- Lines 129-130: deduplicate assets set_images. -/
def cleanSetImages (item : Item) : Py Item :=
  match dlookup item (.str "assets") with
  | some av => do
    let has ← jHasMem av "set_images"
    if has then do
      match av with
      | .obj akvs => do
        let si := (dlookup akvs (.str "set_images")).getD .null
        let xs ← jiterList si
        let ys ← dedupFirst [] xs
        pure (dsetS item "assets" (.obj (dsetS akvs "set_images" (.arr ys))))
      | _ => .error "TypeError"
    else pure item
  | none => pure item

/-- Lines 133-139: coerce the two price fields to floats. -/
def cleanPrice (item : Item) : Py Item :=
  match dlookup item (.str "price_data") with
  | some pv => do
    let hasC ← jHasMem pv "current"
    let pv ← if hasC then
        match pv with
        | .obj pkvs => pure (Json.obj (dsetS pkvs "current"
            (cleanFloat ((dlookup pkvs (.str "current")).getD .null))))
        | _ => .error "TypeError"
      else pure pv
    let hasO ← jHasMem pv "original"
    let pv ← if hasO then
        match pv with
        | .obj pkvs => pure (Json.obj (dsetS pkvs "original"
            (cleanFloat ((dlookup pkvs (.str "original")).getD .null))))
        | _ => .error "TypeError"
      else pure pv
    pure (dsetS item "price_data" pv)
  | none => pure item

/-- Lines 141-145: coerce the stock count to an int. -/
def cleanStock (item : Item) : Py Item :=
  match dlookup item (.str "stock") with
  | some sv => do
    let has ← jHasMem sv "count"
    if has then
      match sv with
      | .obj skvs => pure (dsetS item "stock" (.obj (dsetS skvs "count"
          (cleanInt ((dlookup skvs (.str "count")).getD .null)))))
      | _ => .error "TypeError"
    else pure item
  | none => pure item

/-- Lines 147-151: coerce variants to an int. -/
def cleanVariants (item : Item) : Item :=
  match dlookup item (.str "variants") with
  | some v => dsetS item "variants" (cleanInt v)
  | none => item

/-- Lines 154-158: drop metadata entries whose value is None. -/
def cleanMetadata (item : Item) : Py Item :=
  match dlookup item (.str "metadata") with
  | some (.obj mkvs) =>
    pure (dsetS item "metadata" (.obj (mkvs.filter (fun kv => kv.snd ≠ .null))))
  | some _ => .error "AttributeError"
  | none => pure item

/-- `DataCleaningPipeline.process_item` (lines 117-160). -/
def cleaning_process_item (item : Item) : Py Item := do
  let item := cleanStrings item
  let item ← cleanTags item
  let item ← cleanSetImages item
  let item ← cleanPrice item
  let item ← cleanStock item
  let item := cleanVariants item
  cleanMetadata item

/-! ## middlewares.py — ProxyMiddleware (rotating mode) -/

/-- The mutable middleware state in rotating mode: the enabled flag, the
pool, the per-proxy failure counts (a dict defaulting to 0) and the
rotation index. -/
structure ProxyState where
  enabled : Bool
  proxies : List String
  proxy_failures : List (String × ℕ)
  current_proxy_index : ℕ
  deriving Repr, DecidableEq

/-- `self.max_failures = 3` (line 49). -/
def max_failures : ℕ := 3

/-- `failures.get(proxy, 0)` on a failure dict. -/
def lookupFail (fs : List (String × ℕ)) (p : String) : ℕ :=
  match fs.find? (fun kv => kv.fst = p) with
  | some kv => kv.snd
  | none => 0

/-- `self.proxy_failures.get(proxy, 0)`. -/
def getFailures (st : ProxyState) (p : String) : ℕ :=
  lookupFail st.proxy_failures p

/-- Store a failure count (dict assignment: replace in place or append). -/
def setFailures (fs : List (String × ℕ)) (p : String) (n : ℕ) : List (String × ℕ) :=
  match fs with
  | [] => [(p, n)]
  | (k, v) :: tl => if k = p then (k, n) :: tl else (k, v) :: setFailures tl p n

/-- The while loop of `_get_next_proxy` (lines 160-173): `fuel` is the
remaining attempt budget (`max_attempts - attempts`, fixed at entry);
each iteration takes the proxy at the rotation index modulo the pool size,
advances the index, and returns it unless its failure count has reached
the limit. -/
def pickLoop : ℕ → ProxyState → Option String × ProxyState
  | 0, st => (none, st)
  | fuel + 1, st =>
    if h : st.proxies = [] then (none, st)
    else
      let proxy := st.proxies.get ⟨st.current_proxy_index % st.proxies.length,
        Nat.mod_lt _ (List.length_pos.mpr h)⟩
      let st' := { st with current_proxy_index := st.current_proxy_index + 1 }
      if getFailures st' proxy < max_failures then (some proxy, st')
      else pickLoop fuel st'

/-- `_get_next_proxy` (lines 155-173): `max_attempts = len(self.proxies) * 2`. -/
def get_next_proxy (st : ProxyState) : Option String × ProxyState :=
  pickLoop (st.proxies.length * 2) st

/-- The pool-state effect of `process_request` (lines 120-143) in rotating
mode for a request with no preset proxy: pick a proxy; if none is
available, disable the middleware.  (Header/meta effects on the request
carry no pool state.) -/
def process_request (st : ProxyState) : Option String × ProxyState :=
  if ¬st.enabled then (none, st)
  else if st.proxies ≠ [] then
    match get_next_proxy st with
    | (none, st') => (none, { st' with enabled := false })
    | (some p, st') => (some p, st')
  else (none, st)

/-- The pool-state effect of `process_exception` (lines 185-217) in
rotating mode for a request whose assigned proxy was `p`: increment the
failure count; at the limit remove the proxy from the pool (list.remove:
first occurrence) and, if the pool is now empty, disable the middleware. -/
def process_exception (p : String) (st : ProxyState) : ProxyState :=
  let st := { st with proxy_failures := setFailures st.proxy_failures p (getFailures st p + 1) }
  if getFailures st p ≥ max_failures then
    if p ∈ st.proxies then
      let st := { st with proxies := st.proxies.erase p }
      if st.proxies = [] then { st with enabled := false } else st
    else st
  else st

/-- The per-request retry guard of `process_exception` (lines 212-217):
the failing request is resubmitted (with the proxy cleared) only while its
proxy_retry_times counter stays below 3. -/
def proxy_retry (proxy_retry_times : ℕ) : Option ℕ :=
  if proxy_retry_times + 1 < 3 then some (proxy_retry_times + 1) else none

/-- One middleware interaction touching the pool state: a recorded failure
of proxy `p`, or a rotation pick. -/
inductive ProxyOp where
  | fail (p : String)
  | pick
  deriving Repr, DecidableEq

/-- State after one interaction.  A pick that would raise (rotating mode
with an empty pool falls through to the single-endpoint attribute, which
is unset) mutates nothing before raising, so the state is returned
unchanged. -/
def applyOp (o : ProxyOp) (st : ProxyState) : ProxyState :=
  match o with
  | .fail p => process_exception p st
  | .pick => (process_request st).snd

/-- State after a sequence of interactions. -/
def applyOps (os : List ProxyOp) (st : ProxyState) : ProxyState :=
  os.foldl (fun s o => applyOp o s) st

/-! ## Dictionary lemma kit -/

theorem dlookup_cons (k0 v0 : Json) (tl : List (Json × Json)) (k : Json) :
    dlookup ((k0, v0) :: tl) k = if k0 = k then some v0 else dlookup tl k := by
  by_cases h : k0 = k <;> simp [dlookup, List.find?, h]

theorem dlookup_dsetS_self (it : List (Json × Json)) (k : String) (v : Json) :
    dlookup (dsetS it k v) (.str k) = some v := by
  induction it with
  | nil => simp [dsetS, dlookup_cons]
  | cons hd tl ih =>
    obtain ⟨k0, v0⟩ := hd
    by_cases h : k0 = Json.str k <;> simp [dsetS, h, dlookup_cons, ih]

theorem dlookup_dsetS_ne (it : List (Json × Json)) (k k' : String) (v : Json)
    (h : k ≠ k') : dlookup (dsetS it k' v) (.str k) = dlookup it (.str k) := by
  induction it with
  | nil => simp [dsetS, dlookup_cons, dlookup, Json.str.injEq, Ne.symm h]
  | cons hd tl ih =>
    obtain ⟨k0, v0⟩ := hd
    by_cases h0 : k0 = Json.str k'
    · subst h0
      simp [dsetS, dlookup_cons, Json.str.injEq, Ne.symm h]
    · simp [dsetS, h0, dlookup_cons, ih]

theorem dmem_iff_dlookup (it : List (Json × Json)) (k : Json) :
    dmem it k = (dlookup it k).isSome := rfl

theorem ratFloor_eq (q : ℚ) : q.floor = ⌊q⌋ := by rw [Rat.floor_def', Rat.floor_def]

theorem ite_str (c : Prop) [Decidable c] (a b : String) :
    (if c then Json.str a else Json.str b) = Json.str (if c then a else b) := by
  split <;> rfl

theorem pyPure_eq {α : Type} (x : α) : (pure x : Py α) = Except.ok x := rfl

theorem pyBind_ok {α β : Type} (x : α) (f : α → Py β) :
    (Except.ok x >>= f : Py β) = f x := rfl

theorem pyBind_err {α β : Type} (e : String) (f : α → Py β) :
    (Except.error e >>= f : Py β) = Except.error e := rfl

/-! ## Claim C3 — retry cap -/

/-- C3: a request whose retry counter has reached 3 is never resubmitted a
fourth time by either failure path — the non-200 branch of
`parse_product_list` yields no request for any status, and `handle_error`
yields no request for any attached response; both return (drop with a
logged message) rather than raising, so no failure escalates to a
run-fatal error. -/
theorem retry_cap_no_fourth_attempt (status : ℕ) (respStatus : Option ℕ) :
    parse_product_list_failure status 3 = none ∧ handle_error respStatus 3 = none := by
  constructor
  · unfold parse_product_list_failure
    split <;> simp
  · unfold handle_error
    cases respStatus with
    | none => rfl
    | some s => split <;> simp

/-! ## Claim C5 — city-resolution fallback -/

/-- C5: any failing city-list response — non-200 status, unparsable JSON
body, or a success=false payload — makes `parse_cities` record the
configured initial city identifier and proceed straight to category
parsing: the outcome is returned normally (never an exception), the action
is `startCategories` (never a retry of the page), and the accumulated city
list is left untouched. -/
theorem city_resolution_failure_falls_back (status : ℕ) (parsed : Option Json)
    (st : CityState)
    (h : status ≠ 200 ∨ parsed = none ∨
      ∃ kvs, parsed = some (.obj kvs) ∧ truthy ((dlookup kvs (.str "success")).getD .null) = false) :
    parse_cities status parsed st =
      .ok ⟨st.cities_found, .str st.initial_city_uuid, .startCategories⟩ := by
  by_cases hs : status = 200
  · subst hs
    rcases h with h | h | ⟨kvs, hp, hsucc⟩
    · exact absurd rfl h
    · subst h
      rfl
    · subst hp
      simp [parse_cities, jget, jgetD, hsucc, pyBind_ok, pyPure_eq]
  · simp [parse_cities, hs, pyPure_eq]

/-- Witness for C5 at a concrete failing response: a 503 status. -/
theorem city_resolution_failure_falls_back_witness :
    parse_cities 503 none ⟨[], .null, "Краснодар", "uuid-0"⟩ =
      .ok ⟨[], .str "uuid-0", .startCategories⟩ :=
  city_resolution_failure_falls_back 503 none _ (Or.inl (by decide))

/-! ## Claim C1 — detail fallback equals list-only extraction -/

/-- Helper: list-only emission of a falsy record yields nothing. -/
theorem yield_list_item_falsy (data : Json) (now : ℤ) (h : truthy data = false) :
    yield_list_item data now = .ok [] := by
  simp [yield_list_item, parse_product_from_list, h, pyBind_ok, pyPure_eq]

/-- C1: for every failing detail response — non-200 status, unparsable
JSON body, or a success=false payload — `parse_product_detail` emits
exactly what direct list-only extraction of the paired list record emits
(`yield_list_item`, the emission used by `parse_product_list` in list-only
mode): the same Product when the record produces one, and no product is
dropped relative to list-only extraction. -/
theorem detail_failure_falls_back_to_list (status : ℕ) (parsed : Option Json)
    (list_data : Json) (now : ℤ)
    (h : status ≠ 200 ∨ parsed = none ∨
      ∃ kvs, parsed = some (.obj kvs) ∧ truthy ((dlookup kvs (.str "success")).getD .null) = false) :
    parse_product_detail status parsed list_data now = yield_list_item list_data now := by
  have hy : yield_list_item list_data now =
      (if truthy list_data then yield_list_item list_data now else pure []) := by
    by_cases ht : truthy list_data
    · rw [if_pos ht]
    · rw [if_neg ht, yield_list_item_falsy list_data now (by simpa using ht)]
      rfl
  rw [hy]
  by_cases hs : status = 200
  · subst hs
    rcases h with h | h | ⟨kvs, hp, hsucc⟩
    · exact absurd rfl h
    · subst h
      simp [parse_product_detail]
    · subst hp
      simp [parse_product_detail, jget, jgetD, hsucc, pyBind_ok, pyPure_eq]
  · simp [parse_product_detail, hs, pyPure_eq]

/-- Witness for C1: a 404 detail response paired with a concrete list
record emits the same single product as list-only extraction. -/
theorem detail_failure_falls_back_to_list_witness :
    parse_product_detail 404 none (.obj [(.str "uuid", .str "u-1"), (.str "name", .str "Vino")]) 7 =
      yield_list_item (.obj [(.str "uuid", .str "u-1"), (.str "name", .str "Vino")]) 7 :=
  detail_failure_falls_back_to_list 404 none _ 7 (Or.inl (by decide))

/-! ## Validation lookup lemmas -/

theorem fillstep_lookup_ne (it : Item) (k : String) (d : Json) (f : String) (h : f ≠ k) :
    dlookup (if dmem it (.str k) then it else dsetS it k d) (.str f) = dlookup it (.str f) := by
  by_cases hm : dmem it (.str k) <;> simp [hm, dlookup_dsetS_ne _ f k _ h]

theorem fillstep_lookup_self (it : Item) (k : String) (d : Json) :
    dlookup (if dmem it (.str k) then it else dsetS it k d) (.str k) =
      some ((dlookup it (.str k)).getD d) := by
  by_cases hm : dmem it (.str k)
  · rw [if_pos hm]
    rcases ho : dlookup it (.str k) with _ | v
    · rw [dmem_iff_dlookup, ho] at hm
      simp at hm
    · simp
  · rw [if_neg hm]
    rw [dmem_iff_dlookup] at hm
    rcases ho : dlookup it (.str k) with _ | v
    · simp [dlookup_dsetS_self]
    · rw [ho] at hm
      simp at hm

theorem coerceList_lookup_ne (it : Item) (k f : String) (h : f ≠ k) :
    dlookup (coerceList it k) (.str f) = dlookup it (.str f) := by
  unfold coerceList
  split
  · rfl
  · exact dlookup_dsetS_ne _ f k _ h

theorem coerceList_lookup_self (it : Item) (k : String) :
    dlookup (coerceList it k) (.str k) =
      some (match dlookup it (.str k) with
            | some (.arr xs) => Json.arr xs
            | _ => Json.arr []) := by
  unfold coerceList
  rcases ho : dlookup it (.str k) with _ | v
  · simp [ho, isArr, dlookup_dsetS_self]
  · cases v <;> simp [ho, isArr, dlookup_dsetS_self]

theorem coerceObj_lookup_ne (it : Item) (k f : String) (h : f ≠ k) :
    dlookup (coerceObj it k) (.str f) = dlookup it (.str f) := by
  unfold coerceObj
  split
  · rfl
  · exact dlookup_dsetS_ne _ f k _ h

theorem coerceObj_lookup_self (it : Item) (k : String) :
    dlookup (coerceObj it k) (.str k) =
      some (match dlookup it (.str k) with
            | some (.obj kvs) => Json.obj kvs
            | _ => Json.obj []) := by
  unfold coerceObj
  rcases ho : dlookup it (.str k) with _ | v
  · simp [ho, isObj, dlookup_dsetS_self]
  · cases v <;> simp [ho, isObj, dlookup_dsetS_self]

theorem updObj_lookup_ne (it : Item) (k : String) (g : List (Json × Json) → List (Json × Json))
    (f : String) (h : f ≠ k) :
    dlookup (updObj it k g) (.str f) = dlookup it (.str f) := by
  unfold updObj
  rcases ho : dlookup it (.str k) with _ | v
  · rfl
  · cases v <;> simp [dlookup_dsetS_ne _ f k _ h]

theorem updObj_lookup_self (it : Item) (k : String) (g : List (Json × Json) → List (Json × Json)) :
    dlookup (updObj it k g) (.str k) =
      match dlookup it (.str k) with
      | some (.obj kvs) => some (.obj (g kvs))
      | o => o := by
  unfold updObj
  rcases ho : dlookup it (.str k) with _ | v
  · simp [ho]
  · cases v <;> simp [ho, dlookup_dsetS_self]

/-- Lookup of marketing_tags after validation: the original list, or the
empty list when the field was missing or not a list. -/
theorem validated_mt (item : Item) :
    dlookup (validation_process_item item) (.str "marketing_tags") =
      some (match dlookup item (.str "marketing_tags") with
            | some (.arr xs) => Json.arr xs
            | _ => Json.arr []) := by
  rcases ho : dlookup item (.str "marketing_tags") with _ | v
  · simp [validation_process_item, validate_types, fill_defaults, required_fields,
      updObj_lookup_ne, coerceObj_lookup_ne, coerceList_lookup_ne, coerceList_lookup_self,
      fillstep_lookup_ne, fillstep_lookup_self, ho]
  · cases v <;>
      simp [validation_process_item, validate_types, fill_defaults, required_fields,
        updObj_lookup_ne, coerceObj_lookup_ne, coerceList_lookup_ne, coerceList_lookup_self,
        fillstep_lookup_ne, fillstep_lookup_self, ho]

theorem assetSubStep_lookup_ne (a : List (Json × Json)) (k f : String) (h : f ≠ k) :
    dlookup (assetSubStep a k) (.str f) = dlookup a (.str f) := by
  unfold assetSubStep
  rcases ho : dlookup a (.str k) with _ | v
  · simp [dlookup_dsetS_ne _ f k _ h]
  · by_cases hv : isArr v <;> simp [hv, dlookup_dsetS_ne _ f k _ h]

theorem assetSubStep_lookup_self (a : List (Json × Json)) (k : String) :
    dlookup (assetSubStep a k) (.str k) =
      some (match dlookup a (.str k) with
            | some (.arr xs) => Json.arr xs
            | _ => Json.arr []) := by
  unfold assetSubStep
  rcases ho : dlookup a (.str k) with _ | v
  · simp [dlookup_dsetS_self]
  · cases v <;> simp [isArr, dlookup_dsetS_self, ho]

theorem fillAssetsSub_lookup_si (kvs : List (Json × Json)) :
    dlookup (fillAssetsSub kvs) (.str "set_images") =
      some (match dlookup kvs (.str "set_images") with
            | some (.arr xs) => Json.arr xs
            | _ => Json.arr []) := by
  simp [fillAssetsSub, assetSubStep_lookup_ne, assetSubStep_lookup_self]

theorem fillAssetsSub_lookup_v360 (kvs : List (Json × Json)) :
    dlookup (fillAssetsSub kvs) (.str "view360") =
      some (match dlookup kvs (.str "view360") with
            | some (.arr xs) => Json.arr xs
            | _ => Json.arr []) := by
  simp [fillAssetsSub, assetSubStep_lookup_ne, assetSubStep_lookup_self]

theorem fillAssetsSub_lookup_video (kvs : List (Json × Json)) :
    dlookup (fillAssetsSub kvs) (.str "video") =
      some (match dlookup kvs (.str "video") with
            | some (.arr xs) => Json.arr xs
            | _ => Json.arr []) := by
  simp [fillAssetsSub, assetSubStep_lookup_ne, assetSubStep_lookup_self]

theorem fillPrice_lookup_current (kvs : List (Json × Json)) :
    dlookup (fillPrice kvs) (.str "current") =
      some ((dlookup kvs (.str "current")).getD (.num 0)) := by
  simp [fillPrice, fillstep_lookup_ne, fillstep_lookup_self]

theorem fillPrice_lookup_original (kvs : List (Json × Json)) :
    dlookup (fillPrice kvs) (.str "original") =
      some ((dlookup kvs (.str "original")).getD (.num 0)) := by
  simp [fillPrice, fillstep_lookup_ne, fillstep_lookup_self]

theorem fillStock_lookup_count (kvs : List (Json × Json)) :
    dlookup (fillStock kvs) (.str "count") =
      some ((dlookup kvs (.str "count")).getD (.num 0)) := by
  simp [fillStock, fillstep_lookup_ne, fillstep_lookup_self]

/-- Lookup of section after validation. -/
theorem validated_section (item : Item) :
    dlookup (validation_process_item item) (.str "section") =
      some (match dlookup item (.str "section") with
            | some (.arr xs) => Json.arr xs
            | _ => Json.arr []) := by
  rcases ho : dlookup item (.str "section") with _ | v
  · simp [validation_process_item, validate_types, fill_defaults, required_fields,
      updObj_lookup_ne, coerceObj_lookup_ne, coerceList_lookup_ne, coerceList_lookup_self,
      fillstep_lookup_ne, fillstep_lookup_self, ho]
  · cases v <;>
      simp [validation_process_item, validate_types, fill_defaults, required_fields,
        updObj_lookup_ne, coerceObj_lookup_ne, coerceList_lookup_ne, coerceList_lookup_self,
        fillstep_lookup_ne, fillstep_lookup_self, ho]

/-- Lookup of metadata after validation. -/
theorem validated_metadata (item : Item) :
    dlookup (validation_process_item item) (.str "metadata") =
      some (match dlookup item (.str "metadata") with
            | some (.obj kvs) => Json.obj kvs
            | some _ => Json.obj []
            | none => Json.obj [(.str "__description", .str "")]) := by
  rcases ho : dlookup item (.str "metadata") with _ | v
  · simp [validation_process_item, validate_types, fill_defaults, required_fields,
      updObj_lookup_ne, coerceObj_lookup_ne, coerceObj_lookup_self, coerceList_lookup_ne,
      fillstep_lookup_ne, fillstep_lookup_self, ho]
  · cases v <;>
      simp [validation_process_item, validate_types, fill_defaults, required_fields,
        updObj_lookup_ne, coerceObj_lookup_ne, coerceObj_lookup_self, coerceList_lookup_ne,
        fillstep_lookup_ne, fillstep_lookup_self, ho]

/-- Lookup of price_data after validation: a dict run through `fillPrice`. -/
theorem validated_price (item : Item) :
    dlookup (validation_process_item item) (.str "price_data") =
      some (.obj (fillPrice (match dlookup item (.str "price_data") with
            | some (.obj kvs) => kvs
            | some _ => []
            | none => [(.str "current", .num 0), (.str "original", .num 0),
                (.str "sale_tag", .str "")]))) := by
  rcases ho : dlookup item (.str "price_data") with _ | v
  · simp [validation_process_item, validate_types, fill_defaults, required_fields,
      updObj_lookup_ne, updObj_lookup_self, coerceObj_lookup_ne, coerceObj_lookup_self,
      coerceList_lookup_ne, fillstep_lookup_ne, fillstep_lookup_self, ho]
  · cases v <;>
      simp [validation_process_item, validate_types, fill_defaults, required_fields,
        updObj_lookup_ne, updObj_lookup_self, coerceObj_lookup_ne, coerceObj_lookup_self,
        coerceList_lookup_ne, fillstep_lookup_ne, fillstep_lookup_self, ho]

/-- Lookup of stock after validation: a dict run through `fillStock`. -/
theorem validated_stock (item : Item) :
    dlookup (validation_process_item item) (.str "stock") =
      some (.obj (fillStock (match dlookup item (.str "stock") with
            | some (.obj kvs) => kvs
            | some _ => []
            | none => [(.str "in_stock", .bool false), (.str "count", .num 0)]))) := by
  rcases ho : dlookup item (.str "stock") with _ | v
  · simp [validation_process_item, validate_types, fill_defaults, required_fields,
      updObj_lookup_ne, updObj_lookup_self, coerceObj_lookup_ne, coerceObj_lookup_self,
      coerceList_lookup_ne, fillstep_lookup_ne, fillstep_lookup_self, ho]
  · cases v <;>
      simp [validation_process_item, validate_types, fill_defaults, required_fields,
        updObj_lookup_ne, updObj_lookup_self, coerceObj_lookup_ne, coerceObj_lookup_self,
        coerceList_lookup_ne, fillstep_lookup_ne, fillstep_lookup_self, ho]

/-- Lookup of assets after validation: a dict run through `fillAssetsSub`. -/
theorem validated_assets (item : Item) :
    dlookup (validation_process_item item) (.str "assets") =
      some (.obj (fillAssetsSub (match dlookup item (.str "assets") with
            | some (.obj kvs) => kvs
            | some _ => []
            | none => [(.str "main_image", .str ""), (.str "set_images", .arr []),
                (.str "view360", .arr []), (.str "video", .arr [])]))) := by
  rcases ho : dlookup item (.str "assets") with _ | v
  · simp [validation_process_item, validate_types, fill_defaults, required_fields,
      updObj_lookup_ne, updObj_lookup_self, coerceObj_lookup_ne, coerceObj_lookup_self,
      coerceList_lookup_ne, fillstep_lookup_ne, fillstep_lookup_self, ho]
  · cases v <;>
      simp [validation_process_item, validate_types, fill_defaults, required_fields,
        updObj_lookup_ne, updObj_lookup_self, coerceObj_lookup_ne, coerceObj_lookup_self,
        coerceList_lookup_ne, fillstep_lookup_ne, fillstep_lookup_self, ho]

/-! ## Claim C6 — validation defaults and collection coercion -/

/-- After validation the field holds a list, and a non-list value found
there has been replaced by the empty list. -/
def coercedToList (item : Item) (f : String) : Prop :=
  (∃ xs, dlookup (validation_process_item item) (.str f) = some (.arr xs)) ∧
  ∀ j, dlookup item (.str f) = some j → isArr j = false →
    dlookup (validation_process_item item) (.str f) = some (.arr [])

/-- After validation the field holds a dict, and a non-dict value found
there has been replaced by the empty dict (then refilled with the field's
nested defaults, `refill`). -/
def coercedToObj (item : Item) (f : String) (refill : List (Json × Json)) : Prop :=
  (∃ kvs, dlookup (validation_process_item item) (.str f) = some (.obj kvs)) ∧
  ∀ j, dlookup item (.str f) = some j → isObj j = false →
    dlookup (validation_process_item item) (.str f) = some (.obj refill)

/-- C6: validation never rejects an item (it is a total function); applied
to the completely empty item it yields exactly the all-defaults Product —
timestamp 0, empty strings for RPC/url/title/brand, empty marketing_tags
and section, zero prices with empty sale_tag, out-of-stock zero count,
empty assets, metadata holding only an empty description, variants 0; and
for every item, each position expecting a list or a map that holds a
non-collection value is coerced to the empty collection (for price_data,
stock and assets the emptied dict is then refilled with its typed nested
defaults). -/
theorem validation_empty_defaults_and_coercion :
    validation_process_item [] =
      [(.str "timestamp", .num 0), (.str "RPC", .str ""), (.str "url", .str ""),
       (.str "title", .str ""), (.str "marketing_tags", .arr []), (.str "brand", .str ""),
       (.str "section", .arr []),
       (.str "price_data", .obj [(.str "current", .num 0), (.str "original", .num 0),
         (.str "sale_tag", .str "")]),
       (.str "stock", .obj [(.str "in_stock", .bool false), (.str "count", .num 0)]),
       (.str "assets", .obj [(.str "main_image", .str ""), (.str "set_images", .arr []),
         (.str "view360", .arr []), (.str "video", .arr [])]),
       (.str "metadata", .obj [(.str "__description", .str "")]),
       (.str "variants", .num 0)] ∧
    ∀ item : Item,
      coercedToList item "marketing_tags" ∧ coercedToList item "section" ∧
      coercedToObj item "metadata" [] ∧
      coercedToObj item "price_data"
        [(.str "current", .num 0), (.str "original", .num 0), (.str "sale_tag", .str "")] ∧
      coercedToObj item "stock" [(.str "in_stock", .bool false), (.str "count", .num 0)] ∧
      coercedToObj item "assets"
        [(.str "set_images", .arr []), (.str "view360", .arr []), (.str "video", .arr [])] ∧
      ∀ akvs, dlookup (validation_process_item item) (.str "assets") = some (.obj akvs) →
        ((∃ xs, dlookup akvs (.str "set_images") = some (.arr xs)) ∧
         (∃ xs, dlookup akvs (.str "view360") = some (.arr xs)) ∧
         (∃ xs, dlookup akvs (.str "video") = some (.arr xs))) ∧
        ∀ akvs0, dlookup item (.str "assets") = some (.obj akvs0) →
          ∀ sf, sf ∈ (["set_images", "view360", "video"] : List String) →
            ∀ j, dlookup akvs0 (.str sf) = some j → isArr j = false →
              dlookup akvs (.str sf) = some (.arr []) := by
  refine ⟨by rfl, fun item => ?_⟩
  refine ⟨⟨?_, ?_⟩, ⟨?_, ?_⟩, ⟨?_, ?_⟩, ⟨?_, ?_⟩, ⟨?_, ?_⟩, ⟨?_, ?_⟩, ?_⟩
  · rw [validated_mt]
    rcases dlookup item (.str "marketing_tags") with _ | v
    · exact ⟨[], rfl⟩
    · cases v <;> exact ⟨_, rfl⟩
  · intro j hj hna
    rw [validated_mt, hj]
    cases j <;> simp_all [isArr]
  · rw [validated_section]
    rcases dlookup item (.str "section") with _ | v
    · exact ⟨[], rfl⟩
    · cases v <;> exact ⟨_, rfl⟩
  · intro j hj hna
    rw [validated_section, hj]
    cases j <;> simp_all [isArr]
  · rw [validated_metadata]
    rcases dlookup item (.str "metadata") with _ | v
    · exact ⟨_, rfl⟩
    · cases v <;> exact ⟨_, rfl⟩
  · intro j hj hna
    rw [validated_metadata, hj]
    cases j <;> simp_all [isObj]
  · rw [validated_price]
    exact ⟨_, rfl⟩
  · intro j hj hna
    rw [validated_price, hj]
    cases j <;> simp_all [isObj] <;> rfl
  · rw [validated_stock]
    exact ⟨_, rfl⟩
  · intro j hj hna
    rw [validated_stock, hj]
    cases j <;> simp_all [isObj] <;> rfl
  · rw [validated_assets]
    exact ⟨_, rfl⟩
  · intro j hj hna
    rw [validated_assets, hj]
    cases j <;> simp_all [isObj] <;> rfl
  · intro akvs hak
    rw [validated_assets] at hak
    have hak' : akvs = fillAssetsSub (match dlookup item (.str "assets") with
        | some (.obj kvs) => kvs
        | some _ => []
        | none => [(.str "main_image", .str ""), (.str "set_images", .arr []),
            (.str "view360", .arr []), (.str "video", .arr [])]) := by
      injection hak with h1
      injection h1.symm
    subst hak'
    constructor
    · refine ⟨?_, ?_, ?_⟩
      · rw [fillAssetsSub_lookup_si]
        rcases dlookup (match dlookup item (.str "assets") with
          | some (.obj kvs) => kvs
          | some _ => []
          | none => [(.str "main_image", .str ""), (.str "set_images", .arr []),
              (.str "view360", .arr []), (.str "video", .arr [])]) (.str "set_images") with _ | v
        · exact ⟨[], rfl⟩
        · cases v <;> exact ⟨_, rfl⟩
      · rw [fillAssetsSub_lookup_v360]
        rcases dlookup (match dlookup item (.str "assets") with
          | some (.obj kvs) => kvs
          | some _ => []
          | none => [(.str "main_image", .str ""), (.str "set_images", .arr []),
              (.str "view360", .arr []), (.str "video", .arr [])]) (.str "view360") with _ | v
        · exact ⟨[], rfl⟩
        · cases v <;> exact ⟨_, rfl⟩
      · rw [fillAssetsSub_lookup_video]
        rcases dlookup (match dlookup item (.str "assets") with
          | some (.obj kvs) => kvs
          | some _ => []
          | none => [(.str "main_image", .str ""), (.str "set_images", .arr []),
              (.str "view360", .arr []), (.str "video", .arr [])]) (.str "video") with _ | v
        · exact ⟨[], rfl⟩
        · cases v <;> exact ⟨_, rfl⟩
    · intro akvs0 h0 sf hsf j hj hna
      rw [h0]
      simp only [List.mem_cons, List.mem_singleton, List.not_mem_nil, or_false] at hsf
      rcases hsf with hsf | hsf | hsf
      · subst hsf
        rw [fillAssetsSub_lookup_si, hj]
        cases j <;> simp_all [isArr]
      · subst hsf
        rw [fillAssetsSub_lookup_v360, hj]
        cases j <;> simp_all [isArr]
      · subst hsf
        rw [fillAssetsSub_lookup_video, hj]
        cases j <;> simp_all [isArr]

/-- Witness for C6's universally quantified coercion clause: a number
found where marketing_tags expects a list is coerced to the empty list. -/
theorem validation_empty_defaults_and_coercion_witness :
    dlookup (validation_process_item [(.str "marketing_tags", .num 5)])
      (.str "marketing_tags") = some (.arr []) :=
  (validation_empty_defaults_and_coercion.2
    [(.str "marketing_tags", .num 5)]).1.2 (.num 5) rfl rfl

/-! ## Claim C4 — price extraction -/

/-- C4: for every raw record whose price and previous-price fields are
numeric (or absent, defaulting to 0), extraction yields current = price,
original = previous price falling back to current falling back to 0, and
sale_tag = "Скидка <percent>%" with percent = round((original - current) /
original * 100) exactly when original > current and original > 0, else the
empty string; in particular original=100/current=80 yields "Скидка 20%"
and an absent price (original = 0) yields "". -/
theorem price_extraction_formula :
    (∀ (kvs : List (Json × Json)) (p pp : ℚ),
      (dlookup kvs (.str "price") = some (.num p) ∨
        (dlookup kvs (.str "price") = none ∧ p = 0)) →
      (dlookup kvs (.str "prev_price") = some (.num pp) ∨
        (dlookup kvs (.str "prev_price") = none ∧ pp = 0)) →
      extract_price_data (.obj kvs) = .ok (.obj
        [(.str "current", .num p),
         (.str "original", .num (if pp ≠ 0 then pp else p)),
         (.str "sale_tag", .str
           (if (if pp ≠ 0 then pp else p) > p ∧ (if pp ≠ 0 then pp else p) > 0 then
             "Скидка " ++
               toString (pyRound (((if pp ≠ 0 then pp else p) - p) /
                 (if pp ≠ 0 then pp else p) * 100)) ++ "%"
            else ""))])) ∧
    extract_price_data (.obj [(.str "price", .num 80), (.str "prev_price", .num 100)]) =
      .ok (.obj [(.str "current", .num 80), (.str "original", .num 100),
        (.str "sale_tag", .str "Скидка 20%")]) ∧
    extract_price_data (.obj []) =
      .ok (.obj [(.str "current", .num 0), (.str "original", .num 0),
        (.str "sale_tag", .str "")]) := by
  refine ⟨?_, ?_, by rfl⟩
  · intro kvs p pp hp hpp
    rcases hp with hp | ⟨hp, hp0⟩ <;> rcases hpp with hpp | ⟨hpp, hpp0⟩
    · by_cases h1 : p = 0 <;> by_cases h2 : pp = 0 <;>
        simp [extract_price_data, jget, jgetD, hp, hpp, pyOr, truthy, pyFloat,
          pyBind_ok, pyPure_eq, h1, h2, ite_str]
    · subst hpp0
      by_cases h1 : p = 0 <;>
        simp [extract_price_data, jget, jgetD, hp, hpp, pyOr, truthy, pyFloat,
          pyBind_ok, pyPure_eq, h1, ite_str]
    · subst hp0
      by_cases h2 : pp = 0 <;>
        simp [extract_price_data, jget, jgetD, hp, hpp, pyOr, truthy, pyFloat,
          pyBind_ok, pyPure_eq, h2, ite_str]
    · subst hp0
      subst hpp0
      simp [extract_price_data, jget, jgetD, hp, hpp, pyOr, truthy, pyFloat,
        pyBind_ok, pyPure_eq, ite_str]
  · simp [extract_price_data, jget, jgetD, pyOr, truthy, pyFloat, pyBind_ok,
      pyPure_eq, dlookup_cons]
    norm_num [pyRound, ratFloor_eq]
    decide

/-- Witness for C4: the record price=80, prev_price=100 satisfies the
numeric-field hypotheses and produces the 20 percent sale tag. -/
theorem price_extraction_formula_witness :
    extract_price_data (.obj [(.str "price", .num 80), (.str "prev_price", .num 100)]) =
      .ok (.obj [(.str "current", .num 80),
        (.str "original", .num (if (100 : ℚ) ≠ 0 then 100 else 80)),
        (.str "sale_tag", .str
          (if (if (100 : ℚ) ≠ 0 then (100 : ℚ) else 80) > 80 ∧
              (if (100 : ℚ) ≠ 0 then (100 : ℚ) else 80) > 0 then
            "Скидка " ++
              toString (pyRound (((if (100 : ℚ) ≠ 0 then (100 : ℚ) else 80) - 80) /
                (if (100 : ℚ) ≠ 0 then (100 : ℚ) else 80) * 100)) ++ "%"
           else ""))]) :=
  price_extraction_formula.1 [(.str "price", .num 80), (.str "prev_price", .num 100)]
    80 100 (Or.inl rfl) (Or.inl rfl)

/-! ## Claim C7 — first-occurrence deduplication -/

/-- Canonical first-occurrence-wins deduplication: keep the head, delete
its later duplicates, recurse. -/
def firstOccur : List Json → List Json
  | [] => []
  | x :: tl => x :: firstOccur (tl.filter (fun y => y ≠ x))
termination_by l => l.length
decreasing_by
  simp only [List.length_cons]
  exact Nat.lt_succ_of_le (List.length_filter_le _ _)

theorem mem_firstOccur (l : List Json) : ∀ y, y ∈ firstOccur l ↔ y ∈ l := by
  induction l using firstOccur.induct with
  | case1 => simp [firstOccur]
  | case2 x tl ih =>
    intro y
    rw [firstOccur]
    simp only [List.mem_cons, ih y, List.mem_filter]
    by_cases hxy : y = x
    · simp [hxy]
    · simp [hxy]

theorem firstOccur_nodup (l : List Json) : (firstOccur l).Nodup := by
  induction l using firstOccur.induct with
  | case1 => simp [firstOccur]
  | case2 x tl ih =>
    rw [firstOccur]
    refine List.nodup_cons.mpr ⟨?_, ih⟩
    intro hx
    rw [mem_firstOccur] at hx
    simp [List.mem_filter] at hx

theorem firstOccur_sublist (l : List Json) : List.Sublist (firstOccur l) l := by
  induction l using firstOccur.induct with
  | case1 => simp [firstOccur]
  | case2 x tl ih =>
    rw [firstOccur]
    exact List.Sublist.cons₂ x (ih.trans (List.filter_sublist tl))

theorem filter_notmem_append (l acc : List Json) (x : Json) :
    l.filter (fun y => decide (y ∉ acc ++ [x])) =
      (l.filter (fun y => decide (y ∉ acc))).filter (fun y => decide (y ≠ x)) := by
  rw [List.filter_filter]
  apply List.filter_congr
  intro y _
  have hiff : (y ∉ acc ++ [x]) ↔ (y ≠ x ∧ (y ∉ acc)) := by
    simp only [List.mem_append, List.mem_singleton, not_or]
    exact and_comm
  rw [decide_eq_decide.mpr hiff, Bool.decide_and]

theorem dedupFirst_ok (xs : List Json) : ∀ (acc ys : List Json),
    dedupFirst acc xs = .ok ys →
      ys = acc ++ firstOccur (xs.filter (fun y => decide (y ∉ acc))) := by
  induction xs with
  | nil =>
    intro acc ys h
    simp only [dedupFirst, pyPure_eq] at h
    injection h with h
    simp [← h, firstOccur]
  | cons x tl ih =>
    intro acc ys h
    have step : ∀ (hok : dedupFirst acc (x :: tl) =
        (if x ∈ acc then dedupFirst acc tl else dedupFirst (acc ++ [x]) tl)),
        ys = acc ++ firstOccur ((x :: tl).filter (fun y => decide (y ∉ acc))) := by
      intro hok
      rw [hok] at h
      split at h
      next hmem =>
        have hys := ih _ _ h
        subst hys
        congr 1
        rw [List.filter_cons, if_neg (by simp [hmem])]
      next hmem =>
        have hys := ih _ _ h
        subst hys
        rw [filter_notmem_append, List.append_assoc, List.singleton_append,
          List.filter_cons, if_pos (by simp [hmem]), firstOccur]
    cases x with
    | null => exact step (by simp [dedupFirst])
    | bool b => exact step (by simp [dedupFirst])
    | num q => exact step (by simp [dedupFirst])
    | str s => exact step (by simp [dedupFirst])
    | arr a => simp [dedupFirst] at h
    | obj o => simp [dedupFirst] at h

/-- Successful dict.fromkeys deduplication computes exactly the
first-occurrence sublist, which is duplicate-free. -/
theorem dedup_spec (xs ys : List Json) (h : dedupFirst [] xs = .ok ys) :
    ys = firstOccur xs ∧ ys.Nodup ∧ List.Sublist ys xs := by
  have h1 := dedupFirst_ok xs [] ys h
  have hfilter : xs.filter (fun y => decide (y ∉ ([] : List Json))) = xs := by
    apply List.filter_eq_self.mpr
    intro y _
    simp
  rw [hfilter] at h1
  simp only [List.nil_append] at h1
  exact ⟨h1, h1 ▸ firstOccur_nodup xs, h1 ▸ firstOccur_sublist xs⟩

theorem cleanStrStep_lookup_ne (it : Item) (f k : String) (h : k ≠ f) :
    dlookup (cleanStrStep it f) (.str k) = dlookup it (.str k) := by
  unfold cleanStrStep
  rcases dlookup it (.str f) with _ | v
  · rfl
  · by_cases hv : truthy v <;> simp [hv, dlookup_dsetS_ne _ k f _ h]

theorem cleanStrings_lookup_ne (it : Item) (k : String) (h1 : k ≠ "RPC")
    (h2 : k ≠ "url") (h3 : k ≠ "title") (h4 : k ≠ "brand") :
    dlookup (cleanStrings it) (.str k) = dlookup it (.str k) := by
  simp [cleanStrings, cleanStrStep_lookup_ne _ _ _ h1, cleanStrStep_lookup_ne _ _ _ h2,
    cleanStrStep_lookup_ne _ _ _ h3, cleanStrStep_lookup_ne _ _ _ h4]

theorem cleanTags_arr (it : Item) (ts0 : List Json)
    (h : dlookup it (.str "marketing_tags") = some (.arr ts0)) :
    cleanTags it = (dedupFirst [] ts0).map
      (fun ys => dsetS it "marketing_tags" (.arr ys)) := by
  simp only [cleanTags, h, jiterList, pyBind_ok]
  cases hd : dedupFirst [] ts0 <;> simp [hd, Except.map, pyPure_eq, pyBind_ok, pyBind_err]

theorem cleanSetImages_obj (it : Item) (akvs : List (Json × Json)) (ss0 : List Json)
    (h : dlookup it (.str "assets") = some (.obj akvs))
    (hsi : dlookup akvs (.str "set_images") = some (.arr ss0)) :
    cleanSetImages it = (dedupFirst [] ss0).map
      (fun ys => dsetS it "assets" (.obj (dsetS akvs "set_images" (.arr ys)))) := by
  simp only [cleanSetImages, h, jHasMem, pyBind_ok, dmem, hsi, Option.isSome_some,
    if_pos, Option.getD_some, jiterList]
  cases hd : dedupFirst [] ss0 <;> simp [hd, Except.map, pyPure_eq, pyBind_ok, pyBind_err]

theorem cleanPrice_obj (it : Item) (pkvs : List (Json × Json))
    (h : dlookup it (.str "price_data") = some (.obj pkvs)) :
    ∃ pv, cleanPrice it = .ok (dsetS it "price_data" pv) := by
  simp only [cleanPrice, h, jHasMem, pyBind_ok, dmem]
  by_cases hc : (dlookup pkvs (.str "current")).isSome <;>
    by_cases ho : (dlookup pkvs (.str "original")).isSome <;>
      simp [hc, ho, pyBind_ok, pyPure_eq, jHasMem, dmem, dlookup_dsetS_ne]

theorem cleanStock_obj (it : Item) (skvs : List (Json × Json))
    (h : dlookup it (.str "stock") = some (.obj skvs)) :
    ∃ it2, cleanStock it = .ok it2 ∧
      ∀ (k : String), k ≠ "stock" → dlookup it2 (.str k) = dlookup it (.str k) := by
  simp only [cleanStock, h, jHasMem, dmem, pyPure_eq, pyBind_ok]
  by_cases hc : (dlookup skvs (.str "count")).isSome
  · rw [if_pos hc]
    exact ⟨_, rfl, fun k hk => dlookup_dsetS_ne _ k "stock" _ hk⟩
  · rw [if_neg hc]
    exact ⟨it, rfl, fun k hk => rfl⟩

theorem cleanVariants_lookup_ne (it : Item) (k : String) (h : k ≠ "variants") :
    dlookup (cleanVariants it) (.str k) = dlookup it (.str k) := by
  unfold cleanVariants
  rcases dlookup it (.str "variants") with _ | v
  · rfl
  · simp [dlookup_dsetS_ne _ k "variants" _ h]

theorem cleanMetadata_obj (it : Item) (mkvs : List (Json × Json))
    (h : dlookup it (.str "metadata") = some (.obj mkvs)) :
    cleanMetadata it =
      .ok (dsetS it "metadata" (.obj (mkvs.filter (fun kv => kv.snd ≠ .null)))) := by
  simp [cleanMetadata, h, pyPure_eq]

/-- C7: for every item that passes the cleaning stage (after validation,
as in the configured pipeline order), marketing_tags and assets.set_images
hold no duplicate entries, and the surviving entries are exactly the
first-occurrence subsequence of the validated input sequence (first
occurrence wins on duplicates, order preserved). -/
theorem cleaned_tags_images_dedup :
    ∀ (item item' : Item),
      cleaning_process_item (validation_process_item item) = .ok item' →
      (∃ ts, dlookup item' (.str "marketing_tags") = some (.arr ts) ∧ ts.Nodup ∧
        ∀ ts0, dlookup (validation_process_item item) (.str "marketing_tags") =
            some (.arr ts0) →
          ts = firstOccur ts0 ∧ List.Sublist ts ts0) ∧
      (∃ akvs ss, dlookup item' (.str "assets") = some (.obj akvs) ∧
        dlookup akvs (.str "set_images") = some (.arr ss) ∧ ss.Nodup ∧
        ∀ akvs1 ss0, dlookup (validation_process_item item) (.str "assets") =
            some (.obj akvs1) →
          dlookup akvs1 (.str "set_images") = some (.arr ss0) →
          ss = firstOccur ss0 ∧ List.Sublist ss ss0) := by
  intro item item' h
  obtain ⟨ts0, hmt⟩ : ∃ ts0,
      dlookup (validation_process_item item) (.str "marketing_tags") = some (.arr ts0) := by
    rw [validated_mt]
    rcases dlookup item (.str "marketing_tags") with _ | v
    · exact ⟨[], rfl⟩
    · cases v <;> exact ⟨_, rfl⟩
  obtain ⟨akvs0, hA⟩ : ∃ a,
      dlookup (validation_process_item item) (.str "assets") = some (.obj a) := by
    rw [validated_assets]
    exact ⟨_, rfl⟩
  obtain ⟨ss0, hsi⟩ : ∃ s, dlookup akvs0 (.str "set_images") = some (.arr s) := by
    rw [validated_assets] at hA
    injection hA with hA
    injection hA with hA
    rw [← hA, fillAssetsSub_lookup_si]
    rcases dlookup (match dlookup item (.str "assets") with
      | some (.obj kvs) => kvs
      | some _ => []
      | none => [(.str "main_image", .str ""), (.str "set_images", .arr []),
          (.str "view360", .arr []), (.str "video", .arr [])]) (.str "set_images") with _ | v
    · exact ⟨[], rfl⟩
    · cases v <;> exact ⟨_, rfl⟩
  obtain ⟨pkvs, hP⟩ : ∃ p,
      dlookup (validation_process_item item) (.str "price_data") = some (.obj p) := by
    rw [validated_price]
    exact ⟨_, rfl⟩
  obtain ⟨skvs, hS⟩ : ∃ s,
      dlookup (validation_process_item item) (.str "stock") = some (.obj s) := by
    rw [validated_stock]
    exact ⟨_, rfl⟩
  obtain ⟨mkvs, hM⟩ : ∃ m,
      dlookup (validation_process_item item) (.str "metadata") = some (.obj m) := by
    rw [validated_metadata]
    rcases dlookup item (.str "metadata") with _ | v
    · exact ⟨_, rfl⟩
    · cases v <;> exact ⟨_, rfl⟩
  unfold cleaning_process_item at h
  simp only [] at h
  have hWmt : dlookup (cleanStrings (validation_process_item item))
      (.str "marketing_tags") = some (.arr ts0) := by
    rw [cleanStrings_lookup_ne _ _ (by decide) (by decide) (by decide) (by decide)]
    exact hmt
  have hWA : dlookup (cleanStrings (validation_process_item item))
      (.str "assets") = some (.obj akvs0) := by
    rw [cleanStrings_lookup_ne _ _ (by decide) (by decide) (by decide) (by decide)]
    exact hA
  have hWP : dlookup (cleanStrings (validation_process_item item))
      (.str "price_data") = some (.obj pkvs) := by
    rw [cleanStrings_lookup_ne _ _ (by decide) (by decide) (by decide) (by decide)]
    exact hP
  have hWS : dlookup (cleanStrings (validation_process_item item))
      (.str "stock") = some (.obj skvs) := by
    rw [cleanStrings_lookup_ne _ _ (by decide) (by decide) (by decide) (by decide)]
    exact hS
  have hWM : dlookup (cleanStrings (validation_process_item item))
      (.str "metadata") = some (.obj mkvs) := by
    rw [cleanStrings_lookup_ne _ _ (by decide) (by decide) (by decide) (by decide)]
    exact hM
  rw [cleanTags_arr _ ts0 hWmt] at h
  cases hd1 : dedupFirst [] ts0 with
  | error e =>
    rw [hd1] at h
    simp [Except.map, pyBind_err] at h
  | ok ts =>
    rw [hd1] at h
    simp only [Except.map, pyBind_ok] at h
    have hW2A : dlookup (dsetS (cleanStrings (validation_process_item item))
        "marketing_tags" (.arr ts)) (.str "assets") = some (.obj akvs0) := by
      rw [dlookup_dsetS_ne _ _ _ _ (by decide)]
      exact hWA
    rw [cleanSetImages_obj _ akvs0 ss0 hW2A hsi] at h
    cases hd2 : dedupFirst [] ss0 with
    | error e =>
      rw [hd2] at h
      simp [Except.map, pyBind_err] at h
    | ok ss =>
      rw [hd2] at h
      simp only [Except.map, pyBind_ok] at h
      have hW3P : dlookup (dsetS (dsetS (cleanStrings (validation_process_item item))
          "marketing_tags" (.arr ts)) "assets"
          (.obj (dsetS akvs0 "set_images" (.arr ss)))) (.str "price_data") =
          some (.obj pkvs) := by
        rw [dlookup_dsetS_ne _ _ _ _ (by decide), dlookup_dsetS_ne _ _ _ _ (by decide)]
        exact hWP
      obtain ⟨pv, hcp⟩ := cleanPrice_obj _ pkvs hW3P
      rw [hcp] at h
      simp only [pyBind_ok] at h
      have hW4S : dlookup (dsetS (dsetS (dsetS (cleanStrings (validation_process_item item))
          "marketing_tags" (.arr ts)) "assets"
          (.obj (dsetS akvs0 "set_images" (.arr ss)))) "price_data" pv) (.str "stock") =
          some (.obj skvs) := by
        rw [dlookup_dsetS_ne _ _ _ _ (by decide), dlookup_dsetS_ne _ _ _ _ (by decide),
          dlookup_dsetS_ne _ _ _ _ (by decide)]
        exact hWS
      obtain ⟨W5, hcs, hcsne⟩ := cleanStock_obj _ skvs hW4S
      rw [hcs] at h
      simp only [pyBind_ok] at h
      have hW6M : dlookup (cleanVariants W5) (.str "metadata") = some (.obj mkvs) := by
        rw [cleanVariants_lookup_ne _ _ (by decide), hcsne _ (by decide),
          dlookup_dsetS_ne _ _ _ _ (by decide), dlookup_dsetS_ne _ _ _ _ (by decide),
          dlookup_dsetS_ne _ _ _ _ (by decide)]
        exact hWM
      rw [cleanMetadata_obj _ mkvs hW6M] at h
      injection h with h
      obtain ⟨hts, htsnd, htssub⟩ := dedup_spec ts0 ts hd1
      obtain ⟨hss, hssnd, hsssub⟩ := dedup_spec ss0 ss hd2
      constructor
      · refine ⟨ts, ?_, htsnd, ?_⟩
        · rw [← h, dlookup_dsetS_ne _ _ _ _ (by decide),
            cleanVariants_lookup_ne _ _ (by decide), hcsne _ (by decide),
            dlookup_dsetS_ne _ _ _ _ (by decide), dlookup_dsetS_ne _ _ _ _ (by decide),
            dlookup_dsetS_self]
        · intro ts1 hts1
          rw [hmt] at hts1
          injection hts1 with hts1
          injection hts1 with hts1
          rw [← hts1]
          exact ⟨hts, htssub⟩
      · refine ⟨dsetS akvs0 "set_images" (.arr ss), ss, ?_, ?_, hssnd, ?_⟩
        · rw [← h, dlookup_dsetS_ne _ _ _ _ (by decide),
            cleanVariants_lookup_ne _ _ (by decide), hcsne _ (by decide),
            dlookup_dsetS_ne _ _ _ _ (by decide), dlookup_dsetS_self]
        · rw [dlookup_dsetS_self]
        · intro akvs1 ss1 hak1 hss1
          rw [hA] at hak1
          injection hak1 with hak1
          injection hak1 with hak1
          rw [← hak1] at hss1
          rw [hsi] at hss1
          injection hss1 with hss1
          injection hss1 with hss1
          rw [← hss1]
          exact ⟨hss, hsssub⟩

/-- A concrete item with duplicated marketing_tags and set_images. -/
def c7item : Item :=
  [(.str "marketing_tags", .arr [.str "A", .str "B", .str "A"]),
   (.str "assets", .obj [(.str "set_images", .arr [.str "i", .str "i"])])]

/-- The pipeline output for `c7item`. -/
def c7cleaned : Item :=
  [(.str "marketing_tags", .arr [.str "A", .str "B"]),
   (.str "assets", .obj [(.str "set_images", .arr [.str "i"]),
     (.str "view360", .arr []), (.str "video", .arr [])]),
   (.str "timestamp", .num 0), (.str "RPC", .str ""), (.str "url", .str ""),
   (.str "title", .str ""), (.str "brand", .str ""), (.str "section", .arr []),
   (.str "price_data", .obj [(.str "current", .num 0), (.str "original", .num 0),
     (.str "sale_tag", .str "")]),
   (.str "stock", .obj [(.str "in_stock", .bool false), (.str "count", .num 0)]),
   (.str "metadata", .obj [(.str "__description", .str "")]),
   (.str "variants", .num 0)]

/-- Witness for C7 at `c7item`: the duplicated tag list A,B,A and image
list i,i are cleaned. -/
theorem cleaned_tags_images_dedup_witness :
    (∃ ts, dlookup c7cleaned (.str "marketing_tags") = some (.arr ts) ∧ ts.Nodup ∧
      ∀ ts0, dlookup (validation_process_item c7item) (.str "marketing_tags") =
          some (.arr ts0) →
        ts = firstOccur ts0 ∧ List.Sublist ts ts0) ∧
    (∃ akvs ss, dlookup c7cleaned (.str "assets") = some (.obj akvs) ∧
      dlookup akvs (.str "set_images") = some (.arr ss) ∧ ss.Nodup ∧
      ∀ akvs1 ss0, dlookup (validation_process_item c7item) (.str "assets") =
          some (.obj akvs1) →
        dlookup akvs1 (.str "set_images") = some (.arr ss0) →
        ss = firstOccur ss0 ∧ List.Sublist ss ss0) :=
  cleaned_tags_images_dedup c7item c7cleaned rfl

/-! ## Claim C8 — title volume idempotence -/

theorem titleVolumeSearch_append (u v : List Char) (h : titleVolumeSearch v = true) :
    titleVolumeSearch (u ++ v) = true := by
  induction u with
  | nil => simpa using h
  | cons c tl ih => simp [titleVolumeSearch, ih]

theorem check_volume_append (s t : String) (h : check_volume_in_title t = true) :
    check_volume_in_title (s ++ t) = true := by
  unfold check_volume_in_title at *
  rw [String.data_append, List.map_append]
  exact titleVolumeSearch_append _ _ h

/-- C8: the title rule of both product builders appends the volume suffix
only when the case-insensitive volume pattern is absent from the name (and
the volume is truthy); consequently re-applying the rule to an already
produced title with a pattern-matching volume (the forms produced by the
volume sources: `"<min> л"` and the subname regex match) changes nothing —
the volume is never appended twice. -/
theorem title_volume_guard_and_idempotent :
    ∀ (t v : String) (vol : Json),
      (titleStep t vol = t ∨
        (check_volume_in_title t = false ∧ truthy vol = true ∧
          titleStep t vol = t ++ ", " ++ pyStr vol)) ∧
      (check_volume_in_title t = true → titleStep t vol = t) ∧
      (check_volume_in_title v = true →
        titleStep (titleStep t (.str v)) (.str v) = titleStep t (.str v)) := by
  intro t v vol
  refine ⟨?_, ?_, ?_⟩
  · unfold titleStep
    by_cases hc : check_volume_in_title t
    · simp [hc]
    · by_cases hv : truthy vol
      · right
        exact ⟨by simpa using hc, hv, by simp [hc, hv]⟩
      · left
        simp [hc, hv]
  · intro hc
    simp [titleStep, hc]
  · intro hv
    by_cases hc : check_volume_in_title t
    · simp [titleStep, hc]
    · have hvne : truthy (Json.str v) = true := by
        rcases hv0 : v with ⟨l⟩
        cases l with
        | nil =>
          rw [hv0] at hv
          exact absurd hv (by decide)
        | cons c cs =>
          simp only [truthy]
          apply decide_eq_true
          intro he
          have := congrArg String.data he
          simp at this
      have hstep : titleStep t (.str v) = t ++ ", " ++ v := by
        simp [titleStep, hc, hvne, pyStr]
      rw [hstep]
      have hc2 : check_volume_in_title (t ++ ", " ++ v) = true :=
        check_volume_append (t ++ ", ") v hv
      simp [titleStep, hc2]

/-- Witness for C8 at name "Вино" and volume "0.5 л" (the detail volume
format): one application appends, the second leaves the title unchanged. -/
theorem title_volume_guard_and_idempotent_witness :
    check_volume_in_title "0.5 л" = true ∧
    (titleStep (titleStep "Вино" (.str "0.5 л")) (.str "0.5 л") =
      titleStep "Вино" (.str "0.5 л")) :=
  ⟨by decide,
   (title_volume_guard_and_idempotent "Вино" "0.5 л" (.str "0.5 л")).2.2 (by decide)⟩

/-! ## Claim C2 — proxy eviction and self-disabling -/

theorem lookupFail_set_self (fs : List (String × ℕ)) (p : String) (n : ℕ) :
    lookupFail (setFailures fs p n) p = n := by
  induction fs with
  | nil => simp [setFailures, lookupFail, List.find?]
  | cons hd tl ih =>
    obtain ⟨k, v⟩ := hd
    by_cases hk : k = p
    · simp [setFailures, hk, lookupFail, List.find?]
    · simp only [setFailures, if_neg hk]
      unfold lookupFail
      rw [List.find?]
      simp only [hk, decide_eq_true_eq, if_neg]
      simpa [lookupFail] using ih

theorem lookupFail_set_ne (fs : List (String × ℕ)) (q p : String) (n : ℕ)
    (hqp : q ≠ p) : lookupFail (setFailures fs q n) p = lookupFail fs p := by
  induction fs with
  | nil => simp [setFailures, lookupFail, List.find?, hqp]
  | cons hd tl ih =>
    obtain ⟨k, v⟩ := hd
    by_cases hk : k = q
    · subst hk
      simp [setFailures, lookupFail, List.find?, hqp]
    · simp only [setFailures, if_neg hk]
      unfold lookupFail
      rw [List.find?, List.find?]
      by_cases hkp : k = p
      · simp [hkp]
      · simpa [hkp, lookupFail] using ih

theorem getFailures_index_update (st : ProxyState) (n : ℕ) (p : String) :
    getFailures { st with current_proxy_index := n } p = getFailures st p := rfl

theorem getFailures_fail_self (p : String) (st : ProxyState) :
    getFailures (process_exception p st) p = getFailures st p + 1 := by
  unfold process_exception getFailures
  simp only []
  split
  · split
    · split <;> exact lookupFail_set_self _ p _
    · exact lookupFail_set_self _ p _
  · exact lookupFail_set_self _ p _

theorem getFailures_fail_mono (q p : String) (st : ProxyState) :
    getFailures st p ≤ getFailures (process_exception q st) p := by
  by_cases hqp : q = p
  · subst hqp
    rw [getFailures_fail_self]
    exact Nat.le_succ _
  · unfold process_exception getFailures
    simp only []
    split
    · split
      · split <;> rw [lookupFail_set_ne _ q p _ hqp]
      · rw [lookupFail_set_ne _ q p _ hqp]
    · rw [lookupFail_set_ne _ q p _ hqp]

theorem pickLoop_state (fuel : ℕ) (st : ProxyState) :
    (pickLoop fuel st).snd.proxy_failures = st.proxy_failures ∧
    (pickLoop fuel st).snd.proxies = st.proxies ∧
    (pickLoop fuel st).snd.enabled = st.enabled := by
  induction fuel generalizing st with
  | zero => exact ⟨rfl, rfl, rfl⟩
  | succ n ih =>
    unfold pickLoop
    split
    · exact ⟨rfl, rfl, rfl⟩
    · simp only []
      split
      · exact ⟨rfl, rfl, rfl⟩
      · exact ih _

theorem pickLoop_no_evicted (p : String) (fuel : ℕ) (st : ProxyState)
    (h : getFailures st p ≥ max_failures) : (pickLoop fuel st).fst ≠ some p := by
  induction fuel generalizing st with
  | zero => simp [pickLoop]
  | succ n ih =>
    unfold pickLoop
    split
    · simp
    · simp only []
      split
      next hlt =>
        intro hc
        injection hc with hc
        rw [hc] at hlt
        rw [getFailures_index_update] at hlt
        omega
      next => exact ih _ h

theorem get_next_proxy_no_evicted (p : String) (st : ProxyState)
    (h : getFailures st p ≥ max_failures) : (get_next_proxy st).fst ≠ some p :=
  pickLoop_no_evicted p _ st h

theorem get_next_proxy_failures (st : ProxyState) :
    (get_next_proxy st).snd.proxy_failures = st.proxy_failures :=
  (pickLoop_state _ st).1

theorem process_request_no_evicted (p : String) (st : ProxyState)
    (h : getFailures st p ≥ max_failures) : (process_request st).fst ≠ some p := by
  unfold process_request
  split
  · simp
  · split
    · rcases hg : get_next_proxy st with ⟨fst, snd⟩
      have := get_next_proxy_no_evicted p st h
      rw [hg] at this
      cases fst <;> simpa using this
    · simp

theorem process_request_failures (st : ProxyState) (p : String) :
    getFailures (process_request st).snd p = getFailures st p := by
  unfold process_request
  split
  · rfl
  · split
    · rcases hg : get_next_proxy st with ⟨fst, snd⟩
      have hs : snd.proxy_failures = st.proxy_failures := by
        have h2 := get_next_proxy_failures st
        rw [hg] at h2
        exact h2
      cases fst with
      | none =>
        simp only [hg]
        show lookupFail snd.proxy_failures p = lookupFail st.proxy_failures p
        rw [hs]
      | some q =>
        simp only [hg]
        show lookupFail snd.proxy_failures p = lookupFail st.proxy_failures p
        rw [hs]
    · rfl

theorem applyOp_failures_mono (o : ProxyOp) (st : ProxyState) (p : String) :
    getFailures st p ≤ getFailures (applyOp o st) p := by
  cases o with
  | fail q => exact getFailures_fail_mono q p st
  | pick =>
    show getFailures st p ≤ getFailures (process_request st).snd p
    rw [process_request_failures]

theorem applyOps_failures_mono (ops : List ProxyOp) (st : ProxyState) (p : String) :
    getFailures st p ≤ getFailures (applyOps ops st) p := by
  induction ops generalizing st with
  | nil => exact Nat.le_refl _
  | cons o rest ih =>
    calc getFailures st p ≤ getFailures (applyOp o st) p := applyOp_failures_mono o st p
      _ ≤ getFailures (applyOps rest (applyOp o st)) p := ih _
      _ = getFailures (applyOps (o :: rest) st) p := rfl

theorem process_request_enabled (st : ProxyState)
    (h : (process_request st).snd.enabled = true) : st.enabled = true := by
  unfold process_request at h
  split at h
  · exact h
  · split at h
    · rcases hg : get_next_proxy st with ⟨fst, snd⟩
      rw [hg] at h
      have hs : snd.enabled = st.enabled := by
        have h2 : (get_next_proxy st).snd.enabled = st.enabled := (pickLoop_state _ st).2.2
        rw [hg] at h2
        exact h2
      cases fst with
      | none => exact absurd h (by simp)
      | some q =>
        simp only [] at h
        rw [← hs]
        exact h
    · exact h

theorem applyOp_enabled_mono (o : ProxyOp) (st : ProxyState)
    (h : (applyOp o st).enabled = true) : st.enabled = true := by
  cases o with
  | fail q =>
    unfold applyOp process_exception at h
    simp only [] at h
    split at h
    · split at h
      · split at h
        · exact absurd h (by simp)
        · exact h
      · exact h
    · exact h
  | pick => exact process_request_enabled st h

theorem applyOps_enabled_mono (ops : List ProxyOp) (st : ProxyState)
    (h : (applyOps ops st).enabled = true) : st.enabled = true := by
  induction ops generalizing st with
  | nil => exact h
  | cons o rest ih => exact applyOp_enabled_mono o st (ih (applyOp o st) h)

/-- C2: in rotating proxy mode, every recorded failure increments the
failing proxy's count; when the count reaches max_failures (3) the proxy
is removed from the (duplicate-free) pool, and — because counts only grow
and rotation skips any proxy at the limit — no subsequent sequence of pool
interactions ever returns it from a rotation pick again; an interaction
that empties the pool disables the middleware in the same step, and no
interaction ever re-enables a disabled middleware. -/
theorem proxy_eviction_and_disable :
    ∀ (st : ProxyState) (p : String) (ops : List ProxyOp),
      (getFailures (process_exception p st) p = getFailures st p + 1) ∧
      (st.proxies.Nodup → getFailures st p + 1 ≥ max_failures →
        p ∉ (process_exception p st).proxies) ∧
      (getFailures st p ≥ max_failures →
        (get_next_proxy (applyOps ops st)).fst ≠ some p ∧
        (process_request (applyOps ops st)).fst ≠ some p) ∧
      (st.proxies ≠ [] → (process_exception p st).proxies = [] →
        (process_exception p st).enabled = false) ∧
      ((applyOps ops st).enabled = true → st.enabled = true) := by
  intro st p ops
  refine ⟨getFailures_fail_self p st, ?_, ?_, ?_, applyOps_enabled_mono ops st⟩
  · intro hnd hcount
    unfold process_exception
    simp only []
    have hguard : getFailures { st with
        proxy_failures := setFailures st.proxy_failures p (getFailures st p + 1) } p ≥
        max_failures := by
      show lookupFail (setFailures st.proxy_failures p (getFailures st p + 1)) p ≥ _
      rw [lookupFail_set_self]
      exact hcount
    rw [if_pos hguard]
    split
    next hmem =>
      split
      · show p ∉ st.proxies.erase p
        exact hnd.not_mem_erase
      · show p ∉ st.proxies.erase p
        exact hnd.not_mem_erase
    next hmem => exact hmem
  · intro hge
    have hge2 : getFailures (applyOps ops st) p ≥ max_failures :=
      le_trans hge (applyOps_failures_mono ops st p)
    exact ⟨get_next_proxy_no_evicted p _ hge2, process_request_no_evicted p _ hge2⟩
  · intro hne hempty
    unfold process_exception at hempty ⊢
    simp only [] at hempty ⊢
    split at hempty
    · split at hempty
      next hmem =>
        split at hempty
        next heq =>
          rw [if_pos ‹getFailures _ p ≥ max_failures›, if_pos hmem, if_pos heq]
        next heq => exact absurd hempty heq
      next hmem => exact absurd hempty hne
    · exact absurd hempty hne

/-- Witness for C2: in a three-proxy pool, the third failure of proxy a
evicts it, and with its count at the limit no later pick returns it. -/
theorem proxy_eviction_and_disable_witness :
    "a" ∉ (process_exception "a" ⟨true, ["a", "b", "c"], [("a", 2)], 0⟩).proxies ∧
    (get_next_proxy (applyOps [.pick, .fail "b"]
      ⟨true, ["a", "b", "c"], [("a", 3)], 0⟩)).fst ≠ some "a" :=
  ⟨(proxy_eviction_and_disable ⟨true, ["a", "b", "c"], [("a", 2)], 0⟩ "a" []).2.1
      (by decide) (by decide),
   ((proxy_eviction_and_disable ⟨true, ["a", "b", "c"], [("a", 3)], 0⟩ "a"
      [.pick, .fail "b"]).2.2.1 (by decide)).1⟩

/-! ## Claim C9 — nonnegativity of price and stock -/

/-- A yielded item fed through the two pipelines, as configured in
ITEM_PIPELINES: extraction, then validation, then cleaning. -/
def extract_then_pipeline (data : Json) (now : ℤ) : Py (Option Item) := do
  match ← parse_product_from_list data now with
  | none => pure none
  | some item => do
    let cl ← cleaning_process_item (validation_process_item item)
    pure (some cl)

/-- Sub-field lookup in the pipeline output. -/
def pipelineField (data : Json) (now : ℤ) (k sub : String) : Py (Option Json) := do
  match ← extract_then_pipeline data now with
  | none => pure none
  | some it =>
    match dlookup it (.str k) with
    | some (.obj kvs) => pure (dlookup kvs (.str sub))
    | _ => pure none

theorem pyOr_num_bound (a b : Json) (ha : ∀ q, a = .num q → 0 ≤ q)
    (hb : ∀ q, b = .num q → 0 ≤ q) : ∀ q, pyOr a b = .num q → 0 ≤ q := by
  unfold pyOr
  split
  · exact ha
  · exact hb

theorem pyFloat_nonneg (v : Json) (hval : ∀ q, v = .num q → 0 ≤ q) (r : ℚ)
    (h : pyFloat v = .ok r) : 0 ≤ r := by
  cases v with
  | num q =>
    injection h with h
    exact h ▸ hval q rfl
  | bool b =>
    injection h with h
    rw [← h]
    split <;> norm_num
  | null => exact absurd h (by simp [pyFloat])
  | str s => exact absurd h (by simp [pyFloat])
  | arr xs => exact absurd h (by simp [pyFloat])
  | obj kvs => exact absurd h (by simp [pyFloat])

theorem ratTrunc_nonneg (q : ℚ) (h : 0 ≤ q) : 0 ≤ ratTrunc q := by
  unfold ratTrunc
  rw [if_pos h, ratFloor_eq]
  exact Int.le_floor.mpr (by exact_mod_cast h)

theorem pyInt_nonneg (v : Json) (hval : ∀ q, v = .num q → 0 ≤ q) (r : ℤ)
    (h : pyInt v = .ok r) : 0 ≤ r := by
  cases v with
  | num q =>
    injection h with h
    exact h ▸ ratTrunc_nonneg q (hval q rfl)
  | bool b =>
    injection h with h
    rw [← h]
    split <;> norm_num
  | null => exact absurd h (by simp [pyInt])
  | str s => exact absurd h (by simp [pyInt])
  | arr xs => exact absurd h (by simp [pyInt])
  | obj kvs => exact absurd h (by simp [pyInt])

theorem getD_num_bound (o : Option Json) (d : Json)
    (ho : ∀ q, o = some (.num q) → 0 ≤ q) (hd : ∀ q, d = .num q → 0 ≤ q) :
    ∀ q, o.getD d = .num q → 0 ≤ q := by
  cases o with
  | none => exact hd
  | some v =>
    intro q h
    exact ho q (by rw [Option.getD_some] at h; rw [h])

theorem num_zero_bound : ∀ q, Json.num 0 = .num q → 0 ≤ q := by
  intro q h
  injection h with h
  rw [← h]

theorem extract_price_ok_shape (kvs : List (Json × Json)) (res : Json)
    (h : extract_price_data (.obj kvs) = .ok res)
    (hp : ∀ q, dlookup kvs (.str "price") = some (.num q) → 0 ≤ q)
    (hpp : ∀ q, dlookup kvs (.str "prev_price") = some (.num q) → 0 ≤ q) :
    ∃ c o s, res = .obj [(.str "current", .num c), (.str "original", .num o),
      (.str "sale_tag", .str s)] ∧ 0 ≤ c ∧ 0 ≤ o := by
  unfold extract_price_data at h
  simp only [jgetD, jget, pyBind_ok, pyPure_eq] at h
  have hpv : ∀ q, (dlookup kvs (.str "price")).getD (.num 0) = .num q → 0 ≤ q :=
    getD_num_bound _ _ hp num_zero_bound
  have hppv : ∀ q, (dlookup kvs (.str "prev_price")).getD .null = .num q → 0 ≤ q := by
    refine getD_num_bound _ _ hpp ?_
    intro q hq
    exact absurd hq (by simp)
  cases hc : pyFloat (pyOr ((dlookup kvs (.str "price")).getD (.num 0)) (.num 0)) with
  | error e =>
    rw [hc] at h
    simp [pyBind_err] at h
  | ok c =>
    rw [hc] at h
    simp only [pyBind_ok] at h
    cases ho : pyFloat (pyOr ((dlookup kvs (.str "prev_price")).getD .null)
        (pyOr ((dlookup kvs (.str "price")).getD (.num 0)) (.num 0))) with
    | error e =>
      rw [ho] at h
      simp [pyBind_err] at h
    | ok o =>
      rw [ho] at h
      simp only [pyBind_ok, pyPure_eq] at h
      have hcb : 0 ≤ c :=
        pyFloat_nonneg _ (pyOr_num_bound _ _ hpv num_zero_bound) c hc
      have hob : 0 ≤ o :=
        pyFloat_nonneg _ (pyOr_num_bound _ _ hppv
          (pyOr_num_bound _ _ hpv num_zero_bound)) o ho
      injection h with h
      refine ⟨c, o, if o > c ∧ o > 0 then
        "Скидка " ++ toString (pyRound ((o - c) / o * 100)) ++ "%" else "", ?_, hcb, hob⟩
      rw [← h, ite_str]

theorem extract_stock_ok_shape (kvs : List (Json × Json)) (res : Json)
    (h : extract_stock (.obj kvs) = .ok res)
    (hq : ∀ q, dlookup kvs (.str "quantity") = some (.num q) → 0 ≤ q)
    (hqt : ∀ q, dlookup kvs (.str "quantity_total") = some (.num q) → 0 ≤ q) :
    ∃ (b : Bool) (n : ℤ), res = .obj [(.str "in_stock", .bool b),
      (.str "count", .num (n : ℚ))] ∧ 0 ≤ n := by
  unfold extract_stock at h
  simp only [jgetD, jget, pyBind_ok, pyPure_eq] at h
  have hqv : ∀ q, (dlookup kvs (.str "quantity")).getD (.num 0) = .num q → 0 ≤ q :=
    getD_num_bound _ _ hq num_zero_bound
  have hqtv : ∀ q, (dlookup kvs (.str "quantity_total")).getD (.num 0) = .num q → 0 ≤ q :=
    getD_num_bound _ _ hqt num_zero_bound
  cases hcnt : pyInt (pyOr ((dlookup kvs (.str "quantity")).getD (.num 0))
      (pyOr ((dlookup kvs (.str "quantity_total")).getD (.num 0)) (.num 0))) with
  | error e =>
    rw [hcnt] at h
    simp [pyBind_err] at h
  | ok n =>
    rw [hcnt] at h
    simp only [pyBind_ok, pyPure_eq] at h
    have hnb : 0 ≤ n :=
      pyInt_nonneg _ (pyOr_num_bound _ _ hqv
        (pyOr_num_bound _ _ hqtv num_zero_bound)) n hcnt
    injection h with h
    exact ⟨_, n, h.symm, hnb⟩

theorem ratTrunc_intCast (n : ℤ) : ratTrunc (n : ℚ) = n := by
  unfold ratTrunc
  by_cases h : (0 : ℚ) ≤ (n : ℚ)
  · rw [if_pos h, ratFloor_eq, Int.floor_intCast]
  · rw [if_neg h]
    unfold Rat.ceil
    rw [if_pos (Rat.den_intCast n)]
    exact Rat.num_intCast n

/-- Successful list extraction of a record yields the twelve-field item
with a nonnegative price pair and stock count whenever the record's
numeric price and quantity fields are nonnegative. -/
theorem parse_list_shape (kvs : List (Json × Json)) (now : ℤ) (item0 : Item)
    (h : parse_product_from_list (.obj kvs) now = .ok (some item0))
    (hp : ∀ q, dlookup kvs (.str "price") = some (.num q) → 0 ≤ q)
    (hpp : ∀ q, dlookup kvs (.str "prev_price") = some (.num q) → 0 ≤ q)
    (hq : ∀ q, dlookup kvs (.str "quantity") = some (.num q) → 0 ≤ q)
    (hqt : ∀ q, dlookup kvs (.str "quantity_total") = some (.num q) → 0 ≤ q) :
    ∃ (rpc url title : Json) (tags : List Json) (brand : Json) (sect : List Json)
      (c o : ℚ) (s : String) (b : Bool) (n : ℤ) (mi : Json) (si : List Json)
      (meta : List (Json × Json)),
      item0 = [(.str "timestamp", .num (now : ℚ)), (.str "RPC", rpc), (.str "url", url),
        (.str "title", title), (.str "marketing_tags", .arr tags), (.str "brand", brand),
        (.str "section", .arr sect),
        (.str "price_data", .obj [(.str "current", .num c), (.str "original", .num o),
          (.str "sale_tag", .str s)]),
        (.str "stock", .obj [(.str "in_stock", .bool b), (.str "count", .num (n : ℚ))]),
        (.str "assets", .obj [(.str "main_image", mi), (.str "set_images", .arr si),
          (.str "view360", .arr []), (.str "video", .arr [])]),
        (.str "metadata", .obj meta), (.str "variants", .num 0)] ∧
      0 ≤ c ∧ 0 ≤ o ∧ 0 ≤ n := by
  unfold parse_product_from_list at h
  by_cases ht : truthy (.obj kvs)
  · simp only [ht, Bool.not_true, reduceIte, jget, jgetD, pyBind_ok, pyPure_eq] at h
    cases hvol : extract_volume (.obj kvs) with
    | error e =>
      rw [hvol] at h
      simp [pyBind_err] at h
    | ok vol =>
      rw [hvol] at h
      simp only [pyBind_ok] at h
      cases hnm : (dlookup kvs (.str "name")).getD (.str "") with
      | str s0 =>
        rw [hnm] at h
        simp only [pyBind_ok, pyPure_eq] at h
        cases htags : extract_marketing_tags (.obj kvs) with
        | error e =>
          rw [htags] at h
          simp [pyBind_err] at h
        | ok tags =>
          rw [htags] at h
          simp only [pyBind_ok] at h
          cases hbrand : extract_brand (.obj kvs) with
          | error e =>
            rw [hbrand] at h
            simp [pyBind_err] at h
          | ok brand =>
            rw [hbrand] at h
            simp only [pyBind_ok] at h
            cases hsect : extract_section (.obj kvs) with
            | error e =>
              rw [hsect] at h
              simp [pyBind_err] at h
            | ok sect =>
              rw [hsect] at h
              simp only [pyBind_ok] at h
              cases hprice : extract_price_data (.obj kvs) with
              | error e =>
                rw [hprice] at h
                simp [pyBind_err] at h
              | ok pres =>
                rw [hprice] at h
                simp only [pyBind_ok] at h
                cases hstock : extract_stock (.obj kvs) with
                | error e =>
                  rw [hstock] at h
                  simp [pyBind_err] at h
                | ok sres =>
                  rw [hstock] at h
                  simp only [pyBind_ok] at h
                  have hassets : extract_assets (.obj kvs) = .ok (.obj
                      [(.str "main_image", (dlookup kvs (.str "image_url")).getD (.str "")),
                       (.str "set_images",
                         if truthy ((dlookup kvs (.str "image_url")).getD (.str "")) then
                           .arr [(dlookup kvs (.str "image_url")).getD (.str "")]
                         else .arr []),
                       (.str "view360", .arr []), (.str "video", .arr [])]) := by
                    simp [extract_assets, jgetD, pyBind_ok, pyPure_eq]
                  rw [hassets] at h
                  simp only [pyBind_ok] at h
                  cases hmeta : extract_basic_metadata (.obj kvs) with
                  | error e =>
                    rw [hmeta] at h
                    simp [pyBind_err] at h
                  | ok meta =>
                    rw [hmeta] at h
                    simp only [pyBind_ok, pyPure_eq] at h
                    injection h with h
                    injection h with h
                    obtain ⟨c, o, s, hpres, hcb, hob⟩ :=
                      extract_price_ok_shape kvs pres hprice hp hpp
                    obtain ⟨b, n, hsres, hnb⟩ :=
                      extract_stock_ok_shape kvs sres hstock hq hqt
                    subst hpres
                    subst hsres
                    refine ⟨.str (pyStr (pyOr ((dlookup kvs (.str "uuid")).getD .null) (.str ""))),
                      (dlookup kvs (.str "product_url")).getD (.str ""),
                      .str (titleStep s0 vol), tags, brand, sect, c, o, s, b, n,
                      (dlookup kvs (.str "image_url")).getD (.str ""),
                      (if truthy ((dlookup kvs (.str "image_url")).getD (.str "")) then
                        [(dlookup kvs (.str "image_url")).getD (.str "")] else []),
                      meta, ?_, hcb, hob, hnb⟩
                    rw [← h]
                    congr 1
                    split <;> simp
      | null =>
        rw [hnm] at h
        simp [pyBind_err] at h
      | bool b =>
        rw [hnm] at h
        simp [pyBind_err] at h
      | num q =>
        rw [hnm] at h
        simp [pyBind_err] at h
      | arr xs =>
        rw [hnm] at h
        simp [pyBind_err] at h
      | obj kvs2 =>
        rw [hnm] at h
        simp [pyBind_err] at h
  · simp only [ht, Bool.not_false, reduceIte, pyPure_eq] at h
    injection h with h
    exact absurd h (by simp)

theorem cleanPrice_values (it : Item) (pkvs : List (Json × Json)) (vc vo : Json)
    (h : dlookup it (.str "price_data") = some (.obj pkvs))
    (hc : dlookup pkvs (.str "current") = some vc)
    (ho : dlookup pkvs (.str "original") = some vo) :
    cleanPrice it = .ok (dsetS it "price_data"
      (.obj (dsetS (dsetS pkvs "current" (cleanFloat vc)) "original" (cleanFloat vo)))) := by
  unfold cleanPrice
  rw [h]
  have h2 : dlookup (dsetS pkvs "current" (cleanFloat vc)) (.str "original") = some vo := by
    rw [dlookup_dsetS_ne _ _ _ _ (by decide)]
    exact ho
  simp [jHasMem, dmem, hc, h2, pyPure_eq, pyBind_ok]

theorem cleanStock_value (it : Item) (skvs : List (Json × Json)) (vcnt : Json)
    (h : dlookup it (.str "stock") = some (.obj skvs))
    (hcnt : dlookup skvs (.str "count") = some vcnt) :
    cleanStock it = .ok (dsetS it "stock" (.obj (dsetS skvs "count" (cleanInt vcnt)))) := by
  unfold cleanStock
  rw [h]
  simp [jHasMem, dmem, hcnt, pyPure_eq, pyBind_ok]

/-- C9 (amended): for every product emitted from a raw record whose
numeric price, prev_price, quantity and quantity_total fields are
nonnegative, the pipeline output satisfies price.current ≥ 0,
price.original ≥ 0 and stock.count ≥ 0.  (The unamended claim — for raw
records with arbitrary numeric values — is refuted by
the negative-price counterexample.) -/
theorem price_stock_nonneg_of_nonneg_fields :
    ∀ (kvs : List (Json × Json)) (now : ℤ) (it : Item),
      extract_then_pipeline (.obj kvs) now = .ok (some it) →
      (∀ q, dlookup kvs (.str "price") = some (.num q) → 0 ≤ q) →
      (∀ q, dlookup kvs (.str "prev_price") = some (.num q) → 0 ≤ q) →
      (∀ q, dlookup kvs (.str "quantity") = some (.num q) → 0 ≤ q) →
      (∀ q, dlookup kvs (.str "quantity_total") = some (.num q) → 0 ≤ q) →
      (∃ pkvs c o, dlookup it (.str "price_data") = some (.obj pkvs) ∧
        dlookup pkvs (.str "current") = some (.num c) ∧
        dlookup pkvs (.str "original") = some (.num o) ∧ 0 ≤ c ∧ 0 ≤ o) ∧
      (∃ (skvs : List (Json × Json)) (n : ℤ), dlookup it (.str "stock") = some (.obj skvs) ∧
        dlookup skvs (.str "count") = some (.num (n : ℚ)) ∧ 0 ≤ n) := by
  intro kvs now it h hp hpp hq hqt
  unfold extract_then_pipeline at h
  cases hparse : parse_product_from_list (.obj kvs) now with
  | error e =>
    rw [hparse] at h
    simp [pyBind_err] at h
  | ok oi =>
    rw [hparse] at h
    simp only [pyBind_ok] at h
    cases oi with
    | none => simp [pyPure_eq] at h
    | some item0 =>
      obtain ⟨rpc, url, title, tags, brand, sect, c, o, s, b, n, mi, si, meta,
        hitem, hcb, hob, hnb⟩ := parse_list_shape kvs now item0 hparse hp hpp hq hqt
      have hlitMT : dlookup item0 (.str "marketing_tags") = some (.arr tags) := by
        rw [hitem]
        simp [dlookup_cons]
      have hlitP : dlookup item0 (.str "price_data") = some (.obj
          [(.str "current", .num c), (.str "original", .num o), (.str "sale_tag", .str s)]) := by
        rw [hitem]
        simp [dlookup_cons]
      have hlitS : dlookup item0 (.str "stock") = some (.obj
          [(.str "in_stock", .bool b), (.str "count", .num (n : ℚ))]) := by
        rw [hitem]
        simp [dlookup_cons]
      have hlitA : dlookup item0 (.str "assets") = some (.obj
          [(.str "main_image", mi), (.str "set_images", .arr si),
           (.str "view360", .arr []), (.str "video", .arr [])]) := by
        rw [hitem]
        simp [dlookup_cons]
      have hlitM : dlookup item0 (.str "metadata") = some (.obj meta) := by
        rw [hitem]
        simp [dlookup_cons]
      have hVmt : dlookup (validation_process_item item0) (.str "marketing_tags") =
          some (.arr tags) := by
        rw [validated_mt, hlitMT]
      have hVP : dlookup (validation_process_item item0) (.str "price_data") =
          some (.obj [(.str "current", .num c), (.str "original", .num o),
            (.str "sale_tag", .str s)]) := by
        rw [validated_price, hlitP]
        rfl
      have hVS : dlookup (validation_process_item item0) (.str "stock") =
          some (.obj [(.str "in_stock", .bool b), (.str "count", .num (n : ℚ))]) := by
        rw [validated_stock, hlitS]
        rfl
      have hVA : dlookup (validation_process_item item0) (.str "assets") =
          some (.obj [(.str "main_image", mi), (.str "set_images", .arr si),
            (.str "view360", .arr []), (.str "video", .arr [])]) := by
        rw [validated_assets, hlitA]
        rfl
      have hVM : dlookup (validation_process_item item0) (.str "metadata") =
          some (.obj meta) := by
        rw [validated_metadata, hlitM]
      unfold cleaning_process_item at h
      simp only [] at h
      have hWmt : dlookup (cleanStrings (validation_process_item item0))
          (.str "marketing_tags") = some (.arr tags) := by
        rw [cleanStrings_lookup_ne _ _ (by decide) (by decide) (by decide) (by decide)]
        exact hVmt
      have hWP : dlookup (cleanStrings (validation_process_item item0))
          (.str "price_data") = some (.obj [(.str "current", .num c),
            (.str "original", .num o), (.str "sale_tag", .str s)]) := by
        rw [cleanStrings_lookup_ne _ _ (by decide) (by decide) (by decide) (by decide)]
        exact hVP
      have hWS : dlookup (cleanStrings (validation_process_item item0))
          (.str "stock") = some (.obj [(.str "in_stock", .bool b),
            (.str "count", .num (n : ℚ))]) := by
        rw [cleanStrings_lookup_ne _ _ (by decide) (by decide) (by decide) (by decide)]
        exact hVS
      have hWA : dlookup (cleanStrings (validation_process_item item0))
          (.str "assets") = some (.obj [(.str "main_image", mi),
            (.str "set_images", .arr si), (.str "view360", .arr []),
            (.str "video", .arr [])]) := by
        rw [cleanStrings_lookup_ne _ _ (by decide) (by decide) (by decide) (by decide)]
        exact hVA
      have hWM : dlookup (cleanStrings (validation_process_item item0))
          (.str "metadata") = some (.obj meta) := by
        rw [cleanStrings_lookup_ne _ _ (by decide) (by decide) (by decide) (by decide)]
        exact hVM
      rw [cleanTags_arr _ tags hWmt] at h
      cases hd1 : dedupFirst [] tags with
      | error e =>
        rw [hd1] at h
        simp [Except.map, pyBind_err] at h
      | ok ts =>
        rw [hd1] at h
        simp only [Except.map, pyBind_ok] at h
        have hW2A : dlookup (dsetS (cleanStrings (validation_process_item item0))
            "marketing_tags" (.arr ts)) (.str "assets") = some (.obj
            [(.str "main_image", mi), (.str "set_images", .arr si),
             (.str "view360", .arr []), (.str "video", .arr [])]) := by
          rw [dlookup_dsetS_ne _ _ _ _ (by decide)]
          exact hWA
        rw [cleanSetImages_obj _ _ si hW2A (by simp [dlookup_cons])] at h
        cases hd2 : dedupFirst [] si with
        | error e =>
          rw [hd2] at h
          simp [Except.map, pyBind_err] at h
        | ok ss =>
          rw [hd2] at h
          simp only [Except.map, pyBind_ok] at h
          have hW3P : dlookup (dsetS (dsetS (cleanStrings (validation_process_item item0))
              "marketing_tags" (.arr ts)) "assets"
              (.obj (dsetS [(.str "main_image", mi), (.str "set_images", .arr si),
                (.str "view360", .arr []), (.str "video", .arr [])] "set_images" (.arr ss))))
              (.str "price_data") = some (.obj [(.str "current", .num c),
                (.str "original", .num o), (.str "sale_tag", .str s)]) := by
            rw [dlookup_dsetS_ne _ _ _ _ (by decide), dlookup_dsetS_ne _ _ _ _ (by decide)]
            exact hWP
          rw [cleanPrice_values _ _ (.num c) (.num o) hW3P (by simp [dlookup_cons])
            (by simp [dlookup_cons])] at h
          simp only [pyBind_ok] at h
          have hW4S : dlookup (dsetS (dsetS (dsetS (cleanStrings (validation_process_item item0))
              "marketing_tags" (.arr ts)) "assets"
              (.obj (dsetS [(.str "main_image", mi), (.str "set_images", .arr si),
                (.str "view360", .arr []), (.str "video", .arr [])] "set_images" (.arr ss))))
              "price_data" (.obj (dsetS (dsetS [(.str "current", .num c),
                (.str "original", .num o), (.str "sale_tag", .str s)] "current"
                (cleanFloat (.num c))) "original" (cleanFloat (.num o)))))
              (.str "stock") = some (.obj [(.str "in_stock", .bool b),
                (.str "count", .num (n : ℚ))]) := by
            rw [dlookup_dsetS_ne _ _ _ _ (by decide), dlookup_dsetS_ne _ _ _ _ (by decide),
              dlookup_dsetS_ne _ _ _ _ (by decide)]
            exact hWS
          rw [cleanStock_value _ _ (.num (n : ℚ)) hW4S (by simp [dlookup_cons])] at h
          simp only [pyBind_ok] at h
          have hW5M : dlookup (cleanVariants (dsetS (dsetS (dsetS (dsetS
              (cleanStrings (validation_process_item item0))
              "marketing_tags" (.arr ts)) "assets"
              (.obj (dsetS [(.str "main_image", mi), (.str "set_images", .arr si),
                (.str "view360", .arr []), (.str "video", .arr [])] "set_images" (.arr ss))))
              "price_data" (.obj (dsetS (dsetS [(.str "current", .num c),
                (.str "original", .num o), (.str "sale_tag", .str s)] "current"
                (cleanFloat (.num c))) "original" (cleanFloat (.num o)))))
              "stock" (.obj (dsetS [(.str "in_stock", .bool b),
                (.str "count", .num (n : ℚ))] "count" (cleanInt (.num (n : ℚ)))))))
              (.str "metadata") = some (.obj meta) := by
            rw [cleanVariants_lookup_ne _ _ (by decide),
              dlookup_dsetS_ne _ _ _ _ (by decide), dlookup_dsetS_ne _ _ _ _ (by decide),
              dlookup_dsetS_ne _ _ _ _ (by decide), dlookup_dsetS_ne _ _ _ _ (by decide)]
            exact hWM
          rw [cleanMetadata_obj _ meta hW5M] at h
          simp only [pyBind_ok, pyPure_eq] at h
          injection h with h
          injection h with h
          constructor
          · refine ⟨dsetS (dsetS [(.str "current", .num c), (.str "original", .num o),
              (.str "sale_tag", .str s)] "current" (cleanFloat (.num c))) "original"
              (cleanFloat (.num o)), c, o, ?_, ?_, ?_, hcb, hob⟩
            · rw [← h, dlookup_dsetS_ne _ _ _ _ (by decide),
                cleanVariants_lookup_ne _ _ (by decide),
                dlookup_dsetS_ne _ _ _ _ (by decide), dlookup_dsetS_self]
            · rw [dlookup_dsetS_ne _ _ _ _ (by decide), dlookup_dsetS_self]
              rfl
            · rw [dlookup_dsetS_self]
              rfl
          · refine ⟨dsetS [(.str "in_stock", .bool b), (.str "count", .num (n : ℚ))]
              "count" (cleanInt (.num (n : ℚ))), n, ?_, ?_, hnb⟩
            · rw [← h, dlookup_dsetS_ne _ _ _ _ (by decide),
                cleanVariants_lookup_ne _ _ (by decide), dlookup_dsetS_self]
            · rw [dlookup_dsetS_self]
              show some (cleanInt (.num (n : ℚ))) = some (.num ((n : ℤ) : ℚ))
              simp [cleanInt, pyInt, ratTrunc_intCast]

/-- A raw list record with a negative price and a negative quantity. -/
def c9_record : Json := .obj [(.str "uuid", .str "u-9"), (.str "name", .str "Towel"),
  (.str "price", .num (-5)), (.str "available", .bool true), (.str "quantity", .num (-3))]

/-- C9 counterexample: extraction followed by validation and cleaning of
`c9_record` emits a product with price.current = -5 and stock.count = -3 —
nothing in the pipeline clamps negative raw values, refuting the claim
that current ≥ 0 and count ≥ 0 hold regardless of the numeric values in
the raw record. -/
theorem price_stock_nonneg_counterexample :
    pipelineField c9_record 0 "price_data" "current" = .ok (some (.num (-5))) ∧
    pipelineField c9_record 0 "stock" "count" = .ok (some (.num (-3))) ∧
    ¬ (0 : ℚ) ≤ -5 ∧ ¬ (0 : ℚ) ≤ -3 :=
  ⟨rfl, rfl, by norm_num, by norm_num⟩

/-- A raw record with nonnegative numeric fields. -/
def c9ok_kvs : List (Json × Json) := [(.str "uuid", .str "u"), (.str "name", .str "T"),
  (.str "price", .num 5), (.str "quantity", .num 2)]

/-- The pipeline output for `c9ok_kvs`. -/
def c9ok_item : Item :=
  [(.str "timestamp", .num 0), (.str "RPC", .str "u"), (.str "url", .str ""),
   (.str "title", .str "T"), (.str "marketing_tags", .arr []), (.str "brand", .str ""),
   (.str "section", .arr []),
   (.str "price_data", .obj [(.str "current", .num 5), (.str "original", .num 5),
     (.str "sale_tag", .str "")]),
   (.str "stock", .obj [(.str "in_stock", .bool false), (.str "count", .num 2)]),
   (.str "assets", .obj [(.str "main_image", .str ""), (.str "set_images", .arr []),
     (.str "view360", .arr []), (.str "video", .arr [])]),
   (.str "metadata", .obj [(.str "__description", .str ""), (.str "UUID", .str "u")]),
   (.str "variants", .num 0)]

/-- Witness for the amended C9 at a record with price 5 and quantity 2. -/
theorem price_stock_nonneg_of_nonneg_fields_witness :
    (∃ pkvs c o, dlookup c9ok_item (.str "price_data") = some (.obj pkvs) ∧
      dlookup pkvs (.str "current") = some (.num c) ∧
      dlookup pkvs (.str "original") = some (.num o) ∧ 0 ≤ c ∧ 0 ≤ o) ∧
    (∃ (skvs : List (Json × Json)) (n : ℤ), dlookup c9ok_item (.str "stock") = some (.obj skvs) ∧
      dlookup skvs (.str "count") = some (.num (n : ℚ)) ∧ 0 ≤ n) :=
  price_stock_nonneg_of_nonneg_fields c9ok_kvs 0 c9ok_item rfl
    (by
      intro q hq
      rw [show dlookup c9ok_kvs (.str "price") = some (Json.num 5) from rfl] at hq
      injection hq with h1
      injection h1 with h1
      rw [← h1]
      norm_num)
    (by
      intro q hq
      rw [show dlookup c9ok_kvs (.str "prev_price") = none from rfl] at hq
      exact absurd hq (by simp))
    (by
      intro q hq
      rw [show dlookup c9ok_kvs (.str "quantity") = some (Json.num 2) from rfl] at hq
      injection hq with h1
      injection h1 with h1
      rw [← h1]
      norm_num)
    (by
      intro q hq
      rw [show dlookup c9ok_kvs (.str "quantity_total") = none from rfl] at hq
      exact absurd hq (by simp))

/-! ## Claim C10 — scalar extras in detail-mode metadata assembly -/

theorem dlookup_ite_dsetS_ne (c : Prop) [Decidable c] (X : List (Json × Json))
    (k2 : String) (v2 : Json) (key : String) (h : key ≠ k2) :
    dlookup (if c then dsetS X k2 v2 else X) (.str key) = dlookup X (.str key) := by
  split
  · exact dlookup_dsetS_ne X key k2 v2 h
  · rfl

theorem dmem_ite_dsetS_ne (c : Prop) [Decidable c] (X : List (Json × Json))
    (k2 : String) (v2 : Json) (key : String) (h : key ≠ k2) :
    dmem (if c then dsetS X k2 v2 else X) (.str key) = dmem X (.str key) := by
  unfold dmem
  rw [dlookup_ite_dsetS_ne c X k2 v2 key h]

theorem dlookup_strana_guard (c : Prop) [Decidable c] (X : List (Json × Json))
    (cn : Json) (key : String) (h : key ≠ "Страна") :
    dlookup (if c then (if dmem X (.str "Страна") then X else dsetS X "Страна" cn) else X)
      (.str key) = dlookup X (.str key) := by
  split
  · split
    · rfl
    · exact dlookup_dsetS_ne X key "Страна" cn h
  · rfl

/-- A characteristic block with the plain title `Артикул` (handled by the
`elif title:` branch of the metadata loop, lines 605-613). -/
def c10_block : Json := .obj [(.str "title", .str "Артикул"), (.str "values", .arr [.str "BLOCK-VAL"])]

/-- A detail payload whose description blocks set `Артикул` while its
`vendor_code` scalar holds a different value. -/
def c10_detail : Json := .obj [(.str "uuid", .str "u-1"), (.str "name", .str "Вино 0.7 л"),
  (.str "description_blocks", .arr [c10_block]), (.str "vendor_code", .str "V-1")]

def c10_list : Json := .obj []

/-- The metadata entry under `key` of the item built by
`_parse_product_from_detail`. -/
def detailMetaLookup (d l : Json) (now : ℤ) (key : String) : Py (Option Json) := do
  match ← parse_product_from_detail d l now with
  | none => pure none
  | some it =>
    match dlookup it (.str "metadata") with
    | some (.obj m) => pure (dlookup m (.str key))
    | _ => pure none

/-- C10 counterexample: the characteristic-block loop sets
`metadata["Артикул"] = "BLOCK-VAL"`, yet the scalar-extras block
(line 616: `metadata['Артикул'] = str(detail_data['vendor_code'])`, with no
membership guard) overwrites it with the vendor code, so the emitted
metadata carries `"V-1"`, not the block value.  Only the country-name extra
(lines 618-620) is guarded against overwriting. -/
theorem detail_extras_overwrite_counterexample :
    detail_blocks_metadata [c10_block] [(.str "__description", .str "")]
      = .ok [(.str "__description", .str ""), (.str "Артикул", .str "BLOCK-VAL")] ∧
    detailMetaLookup c10_detail c10_list 0 "Артикул" = .ok (some (.str "V-1")) ∧
    (Json.str "V-1" ≠ Json.str "BLOCK-VAL") :=
  ⟨rfl, rfl, by decide⟩

/-- C10 (amended): in the scalar-extras block of detail-mode metadata
assembly (lines 615-636), a truthy `vendor_code` sets `Артикул` and a
truthy `uuid` sets `UUID` unconditionally — overwriting any value the
characteristic blocks put there — while a truthy `country_name` fills
`Страна` only when that key is still unset; every key other than the seven
scalar-extra keys is left untouched. -/
theorem detail_extras_scalar_merge (dkvs m mr : List (Json × Json))
    (h : detail_extras (.obj dkvs) m = .ok mr) :
    (∀ v, dlookup dkvs (.str "vendor_code") = some v → truthy v = true →
      dlookup mr (.str "Артикул") = some (.str (pyStr v))) ∧
    (∀ v, dlookup dkvs (.str "country_name") = some v → truthy v = true →
      (dmem m (.str "Страна") = true →
        dlookup mr (.str "Страна") = dlookup m (.str "Страна")) ∧
      (dmem m (.str "Страна") = false →
        dlookup mr (.str "Страна") = some v)) ∧
    (∀ v, dlookup dkvs (.str "uuid") = some v → truthy v = true →
      dlookup mr (.str "UUID") = some v) ∧
    (∀ key : String,
      key ∉ (["Артикул", "Страна", "Код страны", "UUID", "Общее количество",
        "Подарочная упаковка", "Офлайн цена"] : List String) →
      dlookup mr (.str key) = dlookup m (.str key)) := by
  unfold detail_extras at h
  simp only [jget, jgetD, pyBind_ok, pyPure_eq] at h
  injection h with h
  subst h
  refine ⟨?_, ?_, ?_, ?_⟩
  · intro v hv htr
    simp only [hv, Option.getD_some, htr, eq_self_iff_true, if_true]
    rw [dlookup_ite_dsetS_ne _ _ _ _ _ (by decide),
        dlookup_ite_dsetS_ne _ _ _ _ _ (by decide),
        dlookup_ite_dsetS_ne _ _ _ _ _ (by decide),
        dlookup_ite_dsetS_ne _ _ _ _ _ (by decide),
        dlookup_ite_dsetS_ne _ _ _ _ _ (by decide),
        dlookup_strana_guard _ _ _ _ (by decide),
        dlookup_dsetS_self]
  · intro v hv htr
    simp only [hv, Option.getD_some, htr, eq_self_iff_true, if_true]
    constructor
    · intro hm
      rw [dlookup_ite_dsetS_ne _ _ _ _ _ (by decide),
          dlookup_ite_dsetS_ne _ _ _ _ _ (by decide),
          dlookup_ite_dsetS_ne _ _ _ _ _ (by decide),
          dlookup_ite_dsetS_ne _ _ _ _ _ (by decide),
          dlookup_ite_dsetS_ne _ _ _ _ _ (by decide)]
      rw [dmem_ite_dsetS_ne _ _ _ _ _ (by decide), hm, if_pos rfl]
      rw [dlookup_ite_dsetS_ne _ _ _ _ _ (by decide)]
    · intro hm
      rw [dlookup_ite_dsetS_ne _ _ _ _ _ (by decide),
          dlookup_ite_dsetS_ne _ _ _ _ _ (by decide),
          dlookup_ite_dsetS_ne _ _ _ _ _ (by decide),
          dlookup_ite_dsetS_ne _ _ _ _ _ (by decide),
          dlookup_ite_dsetS_ne _ _ _ _ _ (by decide)]
      rw [dmem_ite_dsetS_ne _ _ _ _ _ (by decide), hm]
      simp only [Bool.false_eq_true, if_false, dlookup_dsetS_self]
  · intro v hv htr
    simp only [hv, Option.getD_some, htr, eq_self_iff_true, if_true]
    rw [dlookup_ite_dsetS_ne _ _ _ _ _ (by decide),
        dlookup_ite_dsetS_ne _ _ _ _ _ (by decide),
        dlookup_ite_dsetS_ne _ _ _ _ _ (by decide),
        dlookup_dsetS_self]
  · intro key hk
    simp only [List.mem_cons, List.not_mem_nil, or_false, not_or] at hk
    obtain ⟨h1, h2, h3, h4, h5, h6, h7⟩ := hk
    rw [dlookup_ite_dsetS_ne _ _ _ _ _ h7,
        dlookup_ite_dsetS_ne _ _ _ _ _ h6,
        dlookup_ite_dsetS_ne _ _ _ _ _ h5,
        dlookup_ite_dsetS_ne _ _ _ _ _ h4,
        dlookup_ite_dsetS_ne _ _ _ _ _ h3,
        dlookup_strana_guard _ _ _ _ h2,
        dlookup_ite_dsetS_ne _ _ _ _ _ h1]

def c10w_d : List (Json × Json) :=
  [(.str "vendor_code", .str "V-1"), (.str "country_name", .str "Франция"),
   (.str "uuid", .str "u-1")]

def c10w_m : List (Json × Json) :=
  [(.str "__description", .str ""), (.str "Артикул", .str "OLD"),
   (.str "Страна", .str "Германия")]

def c10w_out : List (Json × Json) :=
  [(.str "__description", .str ""), (.str "Артикул", .str "V-1"),
   (.str "Страна", .str "Германия"), (.str "UUID", .str "u-1")]

/-- C10 witness: on a concrete detail payload and block-built metadata the
amended theorem applies — `Артикул` is overwritten, the already-set
`Страна` is kept, `UUID` is added and `__description` is untouched. -/
theorem detail_extras_scalar_merge_witness :
    dlookup c10w_out (.str "Артикул") = some (.str (pyStr (.str "V-1"))) ∧
    dlookup c10w_out (.str "Страна") = dlookup c10w_m (.str "Страна") ∧
    dlookup c10w_out (.str "UUID") = some (.str "u-1") ∧
    dlookup c10w_out (.str "__description") = dlookup c10w_m (.str "__description") := by
  have h := detail_extras_scalar_merge c10w_d c10w_m c10w_out rfl
  exact ⟨h.1 _ rfl rfl, (h.2.1 _ rfl rfl).1 rfl, h.2.2.1 _ rfl rfl,
    h.2.2.2 "__description" (by decide)⟩

end Alkoteka
